import Mathlib

/-!
Verification development for the create-llama question flow
(`packages/create-llama/questions.ts`) and the Pinecone vector-store adapter
(`packages/core/src/storage/vectorStore/PineconeVectorStore.ts`).

The TypeScript code is shallowly embedded: the mutable `program` and
`preferences` records become explicit state, prompts become reads from an
operator oracle (`Answers`), process exits become the `Except` error branch,
and environment signals (CI flag, platform, environment variables, file
system) are passed in as an `Env` record.
-/

namespace CreateLlama

/-- JS truthiness of an optional string field: `undefined` and the empty
string are falsy, every other string is truthy. -/
def strTruthy : Option String → Bool
  | none => false
  | some s => !s.isEmpty

/-- JS truthiness of an optional boolean field: `undefined` and `false` are
falsy. -/
def boolTruthy : Option Bool → Bool
  | none => false
  | some b => b

/-- `a ?? b` on optional values: the left value unless it is `undefined`. -/
def prefOr {α : Type} (a b : Option α) : Option α :=
  match a with
  | none => b
  | some v => some v

/-- Modelled from the spec: tool descriptors from `helpers/tools.ts` (not part
of the sources); per the spec each selected tool "may require extra
configuration", recorded here as the `requiresConfig` flag. -/
structure Tool where
  name : String
  display : String
  requiresConfig : Bool
deriving DecidableEq, Repr

/-- Modelled from the spec: `toolsRequireConfig` from `helpers/tools.ts` (not
part of the sources) reports whether any selected tool requires additional
configuration. -/
def toolsRequireConfig (tools : Option (List Tool)) : Bool :=
  (tools.getD []).any (fun t => t.requiresConfig)

def supportedContextFileTypes : List String :=
  [".pdf", ".doc", ".docx", ".xls", ".xlsx", ".csv"]

/-- Model of Node `path.extname`: the suffix of the basename (the part after
the last path separator) starting at its last dot, empty when there is no dot
or the only dot is the leading character of the basename. -/
def extname (p : String) : String :=
  let cs := p.toList
  let base := (cs.reverse.takeWhile (fun c => c != '/')).reverse
  let afterDot := base.reverse.takeWhile (fun c => c != '.')
  if afterDot.length = base.length then ""
  else
    let j := base.length - afterDot.length - 1
    if j = 0 then "" else String.mk (base.drop j)

/-- The per-type `config` payload of a data-source descriptor. In the source
this is a free-form object; only these keys ever appear. -/
structure DsConfig where
  path : Option String := none
  useLlamaParse : Option Bool := none
  baseUrl : Option String := none
  depth : Option Nat := none
deriving DecidableEq, Repr

/-- A data-source descriptor: a type tag plus its config payload. -/
structure DataSource where
  type : String
  config : DsConfig
deriving DecidableEq, Repr

/-- `program.dataSource?.type` with JS optional chaining. -/
def dsType? (o : Option DataSource) : Option String :=
  o.map (fun d => d.type)

/-- `(program.dataSource?.config as FileSourceConfig)?.useLlamaParse`. -/
def dsUseLlamaParse (o : Option DataSource) : Option Bool :=
  o.bind (fun d => d.config.useLlamaParse)

/-- The accumulating configuration record (`QuestionArgs` in the source);
every field is optional exactly as in the TypeScript type. -/
structure QuestionArgs where
  template : Option String := none
  framework : Option String := none
  engine : Option String := none
  ui : Option String := none
  eslint : Option Bool := none
  frontend : Option Bool := none
  openAiKey : Option String := none
  llamaCloudKey : Option String := none
  model : Option String := none
  embeddingModel : Option String := none
  communityProjectPath : Option String := none
  llamapack : Option String := none
  postInstallAction : Option String := none
  dataSource : Option DataSource := none
  vectorDb : Option String := none
  tools : Option (List Tool) := none
  files : Option String := none
  llamaParse : Option Bool := none
deriving DecidableEq, Repr

/-- The hardcoded `defaults` object (questions.ts lines 62 to 81). Fields
missing from the source object (for example `vectorDb` does not exist there,
and `files` and `llamaParse` are absent) stay `none`. -/
def defaults : QuestionArgs :=
  { template := some "streaming"
    framework := some "nextjs"
    engine := some "simple"
    ui := some "html"
    eslint := some true
    frontend := some false
    openAiKey := some ""
    llamaCloudKey := some ""
    model := some "gpt-3.5-turbo"
    embeddingModel := some "text-embedding-ada-002"
    communityProjectPath := some ""
    llamapack := some ""
    postInstallAction := some "dependencies"
    dataSource := some ⟨"none", {}⟩
    tools := some [] }

/-- Environment signals consumed by the flow: the CI flag, the host
platform, provider keys from the process environment, the file system, and
the external catalogs (remote community folders, supported tools, available
vector-db template directories). -/
structure Env where
  isCI : Bool := false
  platform : String := "linux"
  envOpenAiKey : Option String := none
  envLlamaCloudKey : Option String := none
  existsPath : String → Bool := fun _ => false
  isDirectoryPath : String → Bool := fun _ => false
  repoRootFolders : List String := []
  supportedTools : List Tool := []
  vectordbDirs : String → List String := fun _ => []

/-- The operator oracle: the answer each prompt would receive if issued, the
native file and folder picker results, and the prompt (if any) at which the
operator aborts. -/
structure Answers where
  template : String := ""
  communityProjectPath : String := ""
  llamapack : String := ""
  framework : String := ""
  frontend : Bool := false
  ui : String := ""
  model : String := ""
  embeddingModel : String := ""
  dataSource : String := ""
  pickedFilePath : String := ""
  pickedFolderPath : String := ""
  useLlamaParse : Bool := false
  llamaCloudKey : String := ""
  baseUrl : String := ""
  vectorDb : String := ""
  toolsName : List String := []
  openAiKey : String := ""
  eslint : Bool := false
  action : String := ""
  abortAt : Option String := none
  pickerFails : Bool := false
deriving DecidableEq, Repr

/-- A `process.exit` event: the exit code, the message printed, and whether
the cursor-restore escape sequence was written before exiting. -/
structure ExitInfo where
  code : Nat
  msg : String
  cursorRestored : Bool
deriving DecidableEq, Repr

/-- Resolution state: the in-progress `program` record, the `preferences`
side table, and the trace of prompts issued so far. -/
structure St where
  program : QuestionArgs
  preferences : QuestionArgs
  prompts : List String
deriving DecidableEq, Repr

/-- Outcome of a flow fragment: either the process exited (with the state at
exit time) or resolution continues with the new state. -/
abbrev Res := Except (ExitInfo × St) St

def addPrompt (name : String) (st : St) : St :=
  { st with prompts := st.prompts ++ [name] }

/-- A prompt registered with the shared `handlers` object: on abort the
`onCancel` callback prints "Exiting." and calls `process.exit(1)` without
restoring the cursor. -/
def promptH (name : String) (A : Answers) (st : St) : Res :=
  let st1 := addPrompt name st
  if A.abortAt = some name then .error (⟨1, "Exiting.", false⟩, st1) else .ok st1

/-- A prompt using `onState: onPromptState`: on abort the cursor-restore
escape is written and the process exits with status 1. -/
def promptS (name : String) (A : Answers) (st : St) : Res :=
  let st1 := addPrompt name st
  if A.abortAt = some name then .error (⟨1, "", true⟩, st1) else .ok st1

/-- Sequencing of flow fragments: an exit short-circuits everything after. -/
def andThen (r : Res) (f : St → Res) : Res :=
  match r with
  | .error e => .error e
  | .ok st => f st

/-- `selectLocalContextData` (questions.ts lines 143 to 187): on Windows and
macOS invoke the native picker script (its output and failure are modelled by
the oracle); reject unsupported file extensions; on any other platform, or
when the script invocation throws, exit with status 1. -/
def selectLocalContextData (E : Env) (A : Answers) (type : String) : Except ExitInfo String :=
  if E.platform = "win32" ∨ E.platform = "darwin" then
    if A.pickerFails then
      .error ⟨1, "Got an error when trying to select local context data", false⟩
    else
      if type = "file" then
        if ¬ supportedContextFileTypes.contains (extname A.pickedFilePath) then
          .error ⟨1, "Please select a supported file type", false⟩
        else .ok A.pickedFilePath
      else .ok A.pickedFolderPath
  else .error ⟨1, "Unsupported OS error", false⟩

/-- The condition under which the "generate, install, and run" choice is
appended to the post-install action list (questions.ts lines 228 to 250). -/
def runAppOffered (E : Env) (p : QuestionArgs) : Bool :=
  let openAiKeyConfigured := strTruthy p.openAiKey || strTruthy E.envOpenAiKey
  let llamaCloudKeyConfigured :=
    if boolTruthy (dsUseLlamaParse p.dataSource) then
      strTruthy p.llamaCloudKey || strTruthy E.envLlamaCloudKey
    else true
  let hasVectorDb := strTruthy p.vectorDb && p.vectorDb != some "none"
  !hasVectorDb && openAiKeyConfigured && llamaCloudKeyConfigured &&
    !toolsRequireConfig p.tools && !strTruthy p.llamapack

/-- The post-install action choices offered interactively, as
(title, value) pairs (questions.ts lines 213 to 250). -/
def postInstallActionChoices (E : Env) (p : QuestionArgs) : List (String × String) :=
  [("Just generate code", "none"),
   ("Start in VSCode", "VSCode"),
   ("Generate code and install dependencies", "dependencies")] ++
  (if runAppOffered E p then
    [("Generate code, install dependencies, and run the app", "runApp")]
   else [])

/-- `askPostInstallAction` (questions.ts lines 208 to 266): when the action
is still unset, resolve it from preference or default in CI, otherwise offer
`postInstallActionChoices` and record the selection in `program` only (the
preferences table is not written here). -/
def askPostInstallActionF (E : Env) (A : Answers) (st : St) : Res :=
  if st.program.postInstallAction = none then
    if E.isCI then
      let v := prefOr st.preferences.postInstallAction defaults.postInstallAction
      .ok { st with program := { st.program with postInstallAction := v } }
    else
      andThen (promptH "postInstallAction" A st) fun st1 =>
        .ok { st1 with program := { st1.program with postInstallAction := some A.action } }
  else .ok st

/-- Template resolution (questions.ts lines 268 to 299): skip when already
truthy; in CI take preference or default (program only); otherwise prompt and
record the answer in both program and preferences. -/
def stepTemplate (E : Env) (A : Answers) (st : St) : Res :=
  if strTruthy st.program.template then .ok st
  else if E.isCI then
    let v := prefOr st.preferences.template defaults.template
    .ok { st with program := { st.program with template := v } }
  else
    andThen (promptH "template" A st) fun st1 =>
      .ok { st1 with
        program := { st1.program with template := some A.template },
        preferences := { st1.preferences with template := some A.template } }

/-- Community branch (questions.ts lines 301 to 322): fetch the remote folder
list, prompt for exactly one selection, record it in both program and
preferences, and return early. -/
def stepCommunity (E : Env) (A : Answers) (st : St) : Res :=
  let _rootFolderNames := E.repoRootFolders
  andThen (promptH "communityProjectPath" A st) fun st1 =>
    .ok { st1 with
      program := { st1.program with communityProjectPath := some A.communityProjectPath },
      preferences := { st1.preferences with communityProjectPath := some A.communityProjectPath } }

/-- Llamapack branch (questions.ts lines 324 to 343): prompt for a pack,
record it in both program and preferences; the caller then resolves the
post-install action and returns early. -/
def stepLlamapack (_E : Env) (A : Answers) (st : St) : Res :=
  andThen (promptH "llamapack" A st) fun st1 =>
    .ok { st1 with
      program := { st1.program with llamapack := some A.llamapack },
      preferences := { st1.preferences with llamapack := some A.llamapack } }

/-- Framework resolution (questions.ts lines 345 to 371). The offered choice
list adds NextJS only for the streaming template; the selected value itself
comes from the oracle. -/
def stepFramework (E : Env) (A : Answers) (st : St) : Res :=
  if strTruthy st.program.framework then .ok st
  else if E.isCI then
    let v := prefOr st.preferences.framework defaults.framework
    .ok { st with program := { st.program with framework := v } }
  else
    andThen (promptH "framework" A st) fun st1 =>
      .ok { st1 with
        program := { st1.program with framework := some A.framework },
        preferences := { st1.preferences with framework := some A.framework } }

/-- Frontend toggle (questions.ts lines 373 to 406): asked only for the
streaming template with a backend-only framework; otherwise frontend is
forced to false without prompting. -/
def stepFrontend (E : Env) (A : Answers) (st : St) : Res :=
  if st.program.template = some "streaming" ∧
      (st.program.framework = some "express" ∨ st.program.framework = some "fastapi") then
    if st.program.frontend = none then
      if E.isCI then
        let v := prefOr st.preferences.frontend defaults.frontend
        .ok { st with program := { st.program with frontend := v } }
      else
        andThen (promptS "frontend" A st) fun st1 =>
          .ok { st1 with
            program := { st1.program with frontend := some A.frontend },
            preferences := { st1.preferences with frontend := some A.frontend } }
    else .ok st
  else .ok { st with program := { st.program with frontend := some false } }

/-- UI selection (questions.ts lines 408 to 430): asked only when the
framework is nextjs or a frontend will be generated. -/
def stepUi (E : Env) (A : Answers) (st : St) : Res :=
  if st.program.framework = some "nextjs" ∨ boolTruthy st.program.frontend then
    if strTruthy st.program.ui then .ok st
    else if E.isCI then
      let v := prefOr st.preferences.ui defaults.ui
      .ok { st with program := { st.program with ui := v } }
    else
      andThen (promptH "ui" A st) fun st1 =>
        .ok { st1 with
          program := { st1.program with ui := some A.ui },
          preferences := { st1.preferences with ui := some A.ui } }
  else .ok st

/-- Model selection (questions.ts lines 432 to 457). -/
def stepModel (E : Env) (A : Answers) (st : St) : Res :=
  if strTruthy st.program.model then .ok st
  else if E.isCI then
    let v := prefOr st.preferences.model defaults.model
    .ok { st with program := { st.program with model := v } }
  else
    andThen (promptH "model" A st) fun st1 =>
      .ok { st1 with
        program := { st1.program with model := some A.model },
        preferences := { st1.preferences with model := some A.model } }

/-- Embedding model selection (questions.ts lines 459 to 489): only for the
fastapi framework. -/
def stepEmbedding (E : Env) (A : Answers) (st : St) : Res :=
  if ¬ strTruthy st.program.embeddingModel ∧ st.program.framework = some "fastapi" then
    if E.isCI then
      let v := prefOr st.preferences.embeddingModel defaults.embeddingModel
      .ok { st with program := { st.program with embeddingModel := v } }
    else
      andThen (promptH "embeddingModel" A st) fun st1 =>
        .ok { st1 with
          program := { st1.program with embeddingModel := some A.embeddingModel },
          preferences := { st1.preferences with embeddingModel := some A.embeddingModel } }
  else .ok st

/-- Direct files input (questions.ts lines 491 to 505). The source line 493
reads `program.engine == "context"`, a comparison with no effect, so the
engine field is NOT assigned here; only the data-source descriptor is
derived. A nonexistent path exits with status 1. -/
def stepFiles (E : Env) (st : St) : Res :=
  if strTruthy st.program.files then
    let f := st.program.files.getD ""
    if ¬ E.existsPath f then
      .error (⟨1, "File or folder not found", false⟩, st)
    else
      let ds : DataSource :=
        ⟨if E.isDirectoryPath f then "folder" else "file", { path := some f }⟩
      .ok { st with program := { st.program with dataSource := some ds } }
  else .ok st

/-- Engine and data-source resolution (questions.ts lines 507 to 572). When
the engine is unset: CI takes preference or default for the engine only;
interactively a data-source prompt is issued, `program.dataSource` is first
initialised from preference or default, and the selected choice maps to an
(engine, dataSource) pair, invoking the native picker for local choices.
When the engine is set but the data-source is not, a fixed mapping fills the
data source. -/
def stepEngineDataSource (E : Env) (A : Answers) (st : St) : Res :=
  if ¬ strTruthy st.program.engine then
    if E.isCI then
      let v := prefOr st.preferences.engine defaults.engine
      .ok { st with program := { st.program with engine := v } }
    else
      andThen (promptH "dataSource" A st) fun st1 =>
        -- program.dataSource = getPrefOrDefault("dataSource"); since the
        -- default exists, the value is always defined afterwards, so the
        -- `if (program.dataSource)` guard in the source is always taken.
        let ds0 := (prefOr st1.preferences.dataSource defaults.dataSource).getD ⟨"none", {}⟩
        let p1 := { st1.program with dataSource := some ds0 }
        if A.dataSource = "simple" then
          .ok { st1 with program := { p1 with engine := some "simple", dataSource := some ⟨"none", {}⟩ } }
        else if A.dataSource = "exampleFile" then
          .ok { st1 with program := { p1 with engine := some "context", dataSource := some ⟨"folder", {}⟩ } }
        else if A.dataSource = "localFile" then
          let p2 := { p1 with engine := some "context" }
          match selectLocalContextData E A "file" with
          | .error e => .error (e, { st1 with program := p2 })
          | .ok sel =>
            .ok { st1 with program := { p2 with dataSource := some ⟨"file", { path := some sel }⟩ } }
        else if A.dataSource = "localFolder" then
          let p2 := { p1 with engine := some "context" }
          match selectLocalContextData E A "folder" with
          | .error e => .error (e, { st1 with program := p2 })
          | .ok sel =>
            .ok { st1 with program := { p2 with dataSource := some ⟨"folder", { path := some sel }⟩ } }
        else if A.dataSource = "web" then
          .ok { st1 with program := { p1 with engine := some "context", dataSource := some { ds0 with type := "web" } } }
        else
          -- no switch case matches: nothing further is assigned
          .ok { st1 with program := p1 }
  else if st.program.dataSource = none then
    if st.program.engine = some "context" then
      .ok { st with program := { st.program with dataSource := some ⟨"folder", {}⟩ } }
    else if st.program.engine = some "simple" then
      .ok { st with program := { st.program with dataSource := some ⟨"none", {}⟩ } }
    else .ok st
  else .ok st

/-- LlamaParse toggle and LlamaCloud key (questions.ts lines 574 to 628).
Gated on a file or folder data source with the fastapi framework. In CI the
LlamaCloud key is taken from preference or default. Interactively the config
object is first mutated with the `llamaParse` input (line 583, before any
prompt), the toggle is asked when it is still undefined (for folders always,
for files only for a pdf path), and the key prompt writes `program` only. -/
def stepLlamaParse (E : Env) (A : Answers) (st : St) : Res :=
  match st.program.dataSource with
  | some ds =>
    if (ds.type = "file" ∨ ds.type = "folder") ∧ st.program.framework = some "fastapi" then
      if E.isCI then
        let v := prefOr st.preferences.llamaCloudKey defaults.llamaCloudKey
        .ok { st with program := { st.program with llamaCloudKey := v } }
      else
        let cfg1 := { ds.config with useLlamaParse := st.program.llamaParse }
        let askingLlamaParse : Bool :=
          cfg1.useLlamaParse.isNone &&
            (ds.type == "folder" ||
              (strTruthy cfg1.path && extname (cfg1.path.getD "") == ".pdf"))
        let stMut := { st with program := { st.program with dataSource := some { ds with config := cfg1 } } }
        let step1 : Res :=
          if askingLlamaParse then
            andThen (promptH "useLlamaParse" A stMut) fun st1 =>
              let cfg2 := { cfg1 with useLlamaParse := some A.useLlamaParse }
              .ok { st1 with program := { st1.program with dataSource := some { ds with config := cfg2 } } }
          else .ok stMut
        andThen step1 fun st2 =>
          if boolTruthy (dsUseLlamaParse st2.program.dataSource) ∧ st2.program.llamaCloudKey = none then
            andThen (promptH "llamaCloudKey" A st2) fun st3 =>
              .ok { st3 with program := { st3.program with llamaCloudKey := some A.llamaCloudKey } }
          else .ok st2
    else .ok st
  | none => .ok st

/-- Split a character list at the first occurrence of the "://" separator,
returning the parts before and after it, or nothing if it does not occur. -/
def splitSchemeSep : List Char → Option (List Char × List Char)
  | ':' :: '/' :: '/' :: rest => some ([], rest)
  | c :: rest => (splitSchemeSep rest).map (fun q => (c :: q.1, q.2))
  | [] => none

/-- True when the string contains the scheme separator, as tested by
`baseUrl.includes("://")`. -/
def containsSchemeSep (s : String) : Bool := (splitSchemeSep s.toList).isSome

/-- Simplified model of the WHATWG URL parse performed by `new URL`: the
input splits as scheme, separator, remainder at the first "://"; the scheme
must be nonempty, start with a letter and contain only letters, digits, plus,
minus or dot, and the remainder must be nonempty. Inputs without a separator
never reach this check in the flow (they are prefixed first). -/
def parseUrlScheme (s : String) : Option String :=
  match splitSchemeSep s.toList with
  | none => none
  | some (scheme, rest) =>
    if scheme ≠ [] ∧ (scheme.headD 'a').isAlpha ∧
        scheme.all (fun c => c.isAlphanum ∨ c = '+' ∨ c = '-' ∨ c = '.') ∧
        rest ≠ []
    then some (String.mk scheme) else none

/-- The URL validation of questions.ts lines 640 to 655: the URL must parse
and its protocol must be http or https; both failure modes exit. -/
def urlOk (s : String) : Bool :=
  match parseUrlScheme s with
  | some sch => sch == "http" || sch == "https"
  | none => false

/-- The normalization applied to the entered base URL before validation: a
value without the scheme separator is prefixed with "https://". -/
def normalizeBaseUrl (raw : String) : String :=
  if containsSchemeSep raw then raw else "https://" ++ raw

/-- Website base-URL step (questions.ts lines 630 to 660): for a web data
source with the fastapi framework, prompt for the base URL (no CI guard in
the source), prefix "https://" when the scheme separator is absent, validate,
and either set the config to baseUrl plus depth 1 or exit with status 1. -/
def stepWebBaseUrl (_E : Env) (A : Answers) (st : St) : Res :=
  match st.program.dataSource with
  | some ds =>
    if ds.type = "web" ∧ st.program.framework = some "fastapi" then
      andThen (promptH "baseUrl" A st) fun st1 =>
        let baseUrl := normalizeBaseUrl A.baseUrl
        if urlOk baseUrl then
          let cfg : DsConfig := { baseUrl := some baseUrl, depth := some 1 }
          .ok { st1 with program := { st1.program with dataSource := some { ds with config := cfg } } }
        else .error (⟨1, "Invalid URL provided", false⟩, st1)
    else .ok st
  | none => .ok st

/-- Vector database selection (questions.ts lines 662 to 679): asked whenever
the engine is not "simple" and no vector db is set. The choice list is
filtered by the available template directories for the framework language;
the selected value is recorded in both program and preferences. -/
def stepVectorDb (E : Env) (A : Answers) (st : St) : Res :=
  if st.program.engine ≠ some "simple" ∧ ¬ strTruthy st.program.vectorDb then
    if E.isCI then
      let v := prefOr st.preferences.vectorDb defaults.vectorDb
      .ok { st with program := { st.program with vectorDb := v } }
    else
      andThen (promptH "vectorDb" A st) fun st1 =>
        .ok { st1 with
          program := { st1.program with vectorDb := some A.vectorDb },
          preferences := { st1.preferences with vectorDb := some A.vectorDb } }
  else .ok st

/-- Tool selection (questions.ts lines 681 to 706): a multiselect with no
cancel handlers, so aborting it yields no answer (`toolsName` stays
undefined) and the flow continues; the (possibly undefined) mapped tool list
is written to both program and preferences. In the source a name missing
from `supportedTools` would map to an undefined array entry; here such names
are dropped. -/
def stepTools (E : Env) (A : Answers) (st : St) : Res :=
  if st.program.tools = none ∧ st.program.framework = some "fastapi" ∧
      st.program.engine = some "context" then
    if E.isCI then
      let v := prefOr st.preferences.tools defaults.tools
      .ok { st with program := { st.program with tools := v } }
    else
      let st1 := addPrompt "tools" st
      let toolsAnswer : Option (List String) :=
        if A.abortAt = some "tools" then none else some A.toolsName
      let tools := toolsAnswer.map
        (fun names => names.filterMap (fun n => E.supportedTools.find? (fun t => t.name == n)))
      .ok { st1 with
        program := { st1.program with tools := tools },
        preferences := { st1.preferences with tools := tools } }
  else .ok st

/-- OpenAI key prompt (questions.ts lines 708 to 719): issued whenever the
key is falsy, with NO CI guard; the answer is written to both program and
preferences. -/
def stepOpenAiKey (_E : Env) (A : Answers) (st : St) : Res :=
  if ¬ strTruthy st.program.openAiKey then
    andThen (promptH "openAiKey" A st) fun st1 =>
      .ok { st1 with
        program := { st1.program with openAiKey := some A.openAiKey },
        preferences := { st1.preferences with openAiKey := some A.openAiKey } }
  else .ok st

/-- ESLint toggle (questions.ts lines 721 to 738): only for frameworks other
than fastapi. -/
def stepEslint (E : Env) (A : Answers) (st : St) : Res :=
  if st.program.framework ≠ some "fastapi" ∧ st.program.eslint = none then
    if E.isCI then
      let v := prefOr st.preferences.eslint defaults.eslint
      .ok { st with program := { st.program with eslint := v } }
    else
      andThen (promptS "eslint" A st) fun st1 =>
        .ok { st1 with
          program := { st1.program with eslint := some A.eslint },
          preferences := { st1.preferences with eslint := some A.eslint } }
  else .ok st

/-- The whole `askQuestions` flow (questions.ts lines 199 to 747): template
first, early return for community and llamapack, then the ordered pipeline
ending with the post-install action. -/
def askQuestions (E : Env) (A : Answers) (program preferences : QuestionArgs) : Res :=
  andThen (stepTemplate E A ⟨program, preferences, []⟩) fun st1 =>
  if st1.program.template = some "community" then stepCommunity E A st1
  else if st1.program.template = some "llamapack" then
    andThen (stepLlamapack E A st1) (askPostInstallActionF E A)
  else
  andThen (stepFramework E A st1) fun st2 =>
  andThen (stepFrontend E A st2) fun st3 =>
  andThen (stepUi E A st3) fun st4 =>
  andThen (stepModel E A st4) fun st5 =>
  andThen (stepEmbedding E A st5) fun st6 =>
  andThen (stepFiles E st6) fun st7 =>
  andThen (stepEngineDataSource E A st7) fun st8 =>
  andThen (stepLlamaParse E A st8) fun st9 =>
  andThen (stepWebBaseUrl E A st9) fun st10 =>
  andThen (stepVectorDb E A st10) fun st11 =>
  andThen (stepTools E A st11) fun st12 =>
  andThen (stepOpenAiKey E A st12) fun st13 =>
  andThen (stepEslint E A st13) (askPostInstallActionF E A)

/-! Concrete inputs used by the claim checks below. -/

/-- An environment where every path exists and is a directory. -/
def dirEnv : Env :=
  { existsPath := fun _ => true, isDirectoryPath := fun _ => true }

/-- A CI environment with no stored preferences or environment keys. -/
def ciEnv : Env := { isCI := true }

/-- A fully pre-supplied configuration whose files option points at an
existing directory. -/
def filesProgram : QuestionArgs :=
  { template := some "streaming", framework := some "nextjs", frontend := some false,
    ui := some "html", model := some "m", openAiKey := some "k",
    eslint := some true, postInstallAction := some "none", files := some "./data" }

/-- A fully pre-supplied fastapi configuration with a web data source. -/
def webProgram : QuestionArgs :=
  { template := some "streaming", framework := some "fastapi", frontend := some false,
    ui := some "html", model := some "m", embeddingModel := some "e",
    engine := some "context",
    dataSource := some ⟨"web", { baseUrl := some "https://x.org", depth := some 1 }⟩,
    vectorDb := some "none", tools := some [], openAiKey := some "k",
    llamaCloudKey := some "c", eslint := some true, postInstallAction := some "none" }

/-- A fully pre-supplied express configuration except for the post-install
action. -/
def noActionProgram : QuestionArgs :=
  { template := some "simple", framework := some "express", frontend := some false,
    ui := some "html", model := some "m", engine := some "simple",
    dataSource := some ⟨"none", {}⟩, vectorDb := some "none", tools := some [],
    openAiKey := some "k", eslint := some true }

/-- A fastapi context configuration that reaches the tool-selection prompt
and nothing else. -/
def agentProgram : QuestionArgs :=
  { template := some "streaming", framework := some "fastapi", frontend := some false,
    model := some "m", embeddingModel := some "e", engine := some "context",
    llamaParse := some false, vectorDb := some "none", openAiKey := some "k",
    llamaCloudKey := some "c", postInstallAction := some "none" }

/-- A configuration with an empty-string vector database selection. -/
def emptyVectorDbProgram : QuestionArgs :=
  { vectorDb := some "", openAiKey := some "k" }

/-- A fully pre-supplied express configuration (every gate satisfied, no
fastapi data-source block applies). -/
def fullProgram : QuestionArgs :=
  { template := some "simple", framework := some "express", frontend := some false,
    ui := some "html", model := some "m", embeddingModel := some "e",
    engine := some "simple", dataSource := some ⟨"none", {}⟩,
    vectorDb := some "none", tools := some [], openAiKey := some "k",
    llamaCloudKey := some "c", eslint := some true, postInstallAction := some "none" }

end CreateLlama

namespace Pinecone

/-- The slice of `BaseNode` that `PineconeVectorStore.add` consumes: the node
identifier, its embedding values and its metadata. The value and metadata
types are parameters of the embedding. -/
structure BaseNode (V M : Type) where
  nodeId : String
  embedding : V
  metadata : M
deriving DecidableEq, Repr

/-- A record as handed to the Pinecone `upsert` call. -/
structure PineconeRecord (V M : Type) where
  id : Option String
  values : V
  metadata : M
deriving DecidableEq, Repr

/-- `nodeToRecord` (PineconeVectorStore.ts lines 220 to 227): a node with an
empty id maps to a null record id; `nodeToMetadata` is an external utility
passed in as a parameter. -/
def nodeToRecord {V M : Type} (nodeToMetadata : BaseNode V M → M) (node : BaseNode V M) :
    PineconeRecord V M :=
  { id := if node.nodeId.length ≠ 0 then some node.nodeId else none
    values := node.embedding
    metadata := nodeToMetadata node }

/-- The chunking of the upsert loop (`for i in steps of chunkSize` with
`nodes.slice(i, i + chunkSize)`), for chunk size at least 1; each step
consumes at least one element, so fuel equal to the list length suffices and
keeps the recursion structural. A chunk size of 0 makes the source loop
forever; here it degenerates to singleton chunks. -/
def chunksOfAux {α : Type} (c : Nat) : Nat → List α → List (List α)
  | _, [] => []
  | 0, _ => []
  | fuel + 1, x :: xs => (x :: xs.take (c - 1)) :: chunksOfAux c fuel (xs.drop (c - 1))

def chunksOf {α : Type} (c : Nat) (l : List α) : List (List α) :=
  chunksOfAux c l.length l

/-- Run `saveChunk` on each chunk in order, stopping at the first failure:
returns the chunks actually sent to `upsert` and whether all succeeded. The
success of each `upsert` call is decided by the `upsertOk` oracle
(`saveChunk` catches the error and returns false). -/
def runChunks {R : Type} (upsertOk : List R → Bool) : List (List R) → List (List R) × Bool
  | [] => ([], true)
  | c :: cs =>
    if upsertOk c then
      let r := runChunks upsertOk cs
      (c :: r.1, r.2)
    else ([c], false)

/-- Observable effects of one `add` call: whether the index client was
obtained (and hence the index contacted) and the chunks upserted. -/
structure AddTrace (V M : Type) where
  clientCreated : Bool
  upserts : List (List (PineconeRecord V M))
deriving DecidableEq, Repr

/-- `PineconeVectorStore.add` (PineconeVectorStore.ts lines 95 to 111): an
empty input resolves immediately to the empty array without touching the
index; otherwise the nodes are mapped to records, upserted in chunks, and on
success the promise resolves to the empty array (never the upserted ids); a
failed chunk rejects. -/
def add {V M : Type} (chunkSize : Nat) (upsertOk : List (PineconeRecord V M) → Bool)
    (nodeToMetadata : BaseNode V M → M) (embeddingResults : List (BaseNode V M)) :
    Except Unit (List String) × AddTrace V M :=
  if embeddingResults.length = 0 then (.ok [], ⟨false, []⟩)
  else
    let nodes := embeddingResults.map (nodeToRecord nodeToMetadata)
    let r := runChunks upsertOk (chunksOf chunkSize nodes)
    (if r.2 then .ok [] else .error (), ⟨true, r.1⟩)

end Pinecone

/-! Theorems. General lemmas about the flow combinators first, then the
per-claim results. -/

namespace CreateLlama

@[simp] theorem andThen_ok (st : St) (f : St → Res) : andThen (.ok st) f = f st := rfl

@[simp] theorem andThen_error (e : ExitInfo × St) (f : St → Res) :
    andThen (.error e) f = .error e := rfl

theorem andThen_ok_elim {r : Res} {f : St → Res} {st' : St}
    (h : andThen r f = .ok st') : ∃ st1, r = .ok st1 ∧ f st1 = .ok st' := by
  cases r with
  | error e => simp [andThen] at h
  | ok st1 => exact ⟨st1, rfl, by simpa [andThen] using h⟩

theorem andThen_error_elim {r : Res} {f : St → Res} {e : ExitInfo × St}
    (h : andThen r f = .error e) :
    r = .error e ∨ ∃ st1, r = .ok st1 ∧ f st1 = .error e := by
  cases r with
  | error e1 => left; simpa [andThen] using h
  | ok st1 => right; exact ⟨st1, rfl, by simpa [andThen] using h⟩

theorem strTruthy_eq_false_iff (o : Option String) :
    strTruthy o = false ↔ o = none ∨ o = some "" := by
  cases o with
  | none => simp [strTruthy]
  | some s => simp [strTruthy, String.isEmpty_iff]

/-- C1: the source comment says a direct files input "should use context
engine", but line 493 is `program.engine == "context"`, a comparison rather
than an assignment. On a fully pre-supplied input with an existing directory
as files path: the files step derives the folder descriptor but leaves the
engine unset, and the subsequent run still issues the data-source prompt,
whose answer then overwrites both the engine and the derived descriptor --
contradicting the claim that the engine is set to context-aware with no
data-source prompt. -/
theorem C1_files_leaves_engine_unset :
    stepFiles dirEnv ⟨filesProgram, {}, []⟩ =
      .ok ⟨{ filesProgram with dataSource := some ⟨"folder", { path := some "./data" }⟩ }, {}, []⟩ ∧
    filesProgram.engine = none ∧
    (askQuestions dirEnv { dataSource := "simple" } filesProgram {}).toOption.map St.prompts =
      some ["dataSource"] ∧
    ((askQuestions dirEnv { dataSource := "simple" } filesProgram {}).toOption.map St.program).map
        QuestionArgs.engine = some (some "simple") ∧
    ((askQuestions dirEnv { dataSource := "simple" } filesProgram {}).toOption.map St.program).map
        QuestionArgs.dataSource = some (some ⟨"none", {}⟩) :=
  ⟨rfl, rfl, rfl, rfl, rfl⟩

/-- C2 counterexample: a fully pre-supplied configuration (fastapi framework,
web data source, every field set, truthy key) still issues the website
base-URL prompt and mutates the data-source config, so resolution is neither
prompt-free nor identity on this input. -/
theorem C2_counterexample :
    (askQuestions {} { baseUrl := "www.example.com" } webProgram {}).toOption.map St.prompts =
      some ["baseUrl"] ∧
    ((askQuestions {} { baseUrl := "www.example.com" } webProgram {}).toOption.map St.program).map
        QuestionArgs.dataSource =
      some (some ⟨"web", { baseUrl := some "https://www.example.com", depth := some 1 }⟩) ∧
    webProgram.dataSource = some ⟨"web", { baseUrl := some "https://x.org", depth := some 1 }⟩ :=
  ⟨rfl, rfl, rfl⟩

/-- C3 counterexample: in CI mode with every field unset, the run still
issues the OpenAI key prompt (questions.ts lines 708 to 719 have no CI
guard), contradicting the claim that no prompt of any kind is ever issued in
non-interactive mode. -/
theorem C3_counterexample :
    ciEnv.isCI = true ∧
    (askQuestions ciEnv {} {} {}).toOption.map St.prompts = some ["openAiKey"] :=
  ⟨rfl, rfl⟩

/-- C4 counterexample: with the empty string as the vector-db selection (a
set value that is neither unset nor "none"), the run-app choice is still
offered, because the source tests JS truthiness rather than the two listed
values. -/
theorem C4_counterexample :
    "runApp" ∈ (postInstallActionChoices {} emptyVectorDbProgram).map Prod.snd ∧
    emptyVectorDbProgram.vectorDb ≠ none ∧
    emptyVectorDbProgram.vectorDb ≠ some "none" := by
  refine ⟨?_, ?_, ?_⟩ <;> decide

/-- C4 amended: the "generate, install, and run" choice is offered if and
only if the vector db is unset, empty, or "none"; a primary key is truthy on
the input or in the environment; the LlamaCloud key is truthy on the input
or in the environment whenever the data-source config requests LlamaParse;
no selected tool requires configuration; and the llamapack field is unset or
empty. -/
theorem C4_run_app_offer_iff (E : Env) (p : QuestionArgs) :
    "runApp" ∈ (postInstallActionChoices E p).map Prod.snd ↔
      ((p.vectorDb = none ∨ p.vectorDb = some "" ∨ p.vectorDb = some "none") ∧
       (strTruthy p.openAiKey = true ∨ strTruthy E.envOpenAiKey = true) ∧
       (boolTruthy (dsUseLlamaParse p.dataSource) = true →
          strTruthy p.llamaCloudKey = true ∨ strTruthy E.envLlamaCloudKey = true) ∧
       toolsRequireConfig p.tools = false ∧
       (p.llamapack = none ∨ p.llamapack = some "")) := by
  have hmem : "runApp" ∈ (postInstallActionChoices E p).map Prod.snd ↔ runAppOffered E p = true := by
    unfold postInstallActionChoices
    cases h : runAppOffered E p <;> simp [h]
  rw [hmem]
  unfold runAppOffered
  simp only [Bool.and_eq_true, Bool.not_eq_true', Bool.and_eq_false_iff,
    bne_eq_false_iff_eq, Bool.or_eq_true, strTruthy_eq_false_iff]
  constructor
  · rintro ⟨⟨⟨⟨h1, h2⟩, h3⟩, h4⟩, h5⟩
    refine ⟨by tauto, h2, ?_, h4, h5⟩
    intro hl
    rw [if_pos hl] at h3
    simpa using h3
  · rintro ⟨h1, h2, h3, h4, h5⟩
    refine ⟨⟨⟨⟨by tauto, h2⟩, ?_⟩, h4⟩, h5⟩
    by_cases hl : boolTruthy (dsUseLlamaParse p.dataSource) = true
    · rw [if_pos hl]
      simpa using h3 hl
    · rw [if_neg hl]


/-- C5: for a web data source under the fastapi framework, the base-URL
prompt is issued, its answer is normalized (an https prefix is added when the
scheme separator is absent) and validated; with scheme http or https the
data-source config becomes the normalized baseUrl plus depth 1; any other
input makes the process exit with status 1 and an error message, with no
retry. -/
theorem C5_web_base_url (E : Env) (A : Answers) (st : St) (ds : DataSource)
    (hds : st.program.dataSource = some ds) (hty : ds.type = "web")
    (hfw : st.program.framework = some "fastapi")
    (hab : A.abortAt ≠ some "baseUrl") :
    (containsSchemeSep A.baseUrl = false →
      normalizeBaseUrl A.baseUrl = "https://" ++ A.baseUrl) ∧
    (urlOk (normalizeBaseUrl A.baseUrl) = true →
      stepWebBaseUrl E A st =
        .ok ⟨{ st.program with dataSource := some ⟨ds.type, ⟨none, none, some (normalizeBaseUrl A.baseUrl), some 1⟩⟩ },
             st.preferences, st.prompts ++ ["baseUrl"]⟩) ∧
    (urlOk (normalizeBaseUrl A.baseUrl) = false →
      stepWebBaseUrl E A st =
        .error (⟨1, "Invalid URL provided", false⟩,
                ⟨st.program, st.preferences, st.prompts ++ ["baseUrl"]⟩)) := by
  refine ⟨fun h => by simp [normalizeBaseUrl, h], ?_, ?_⟩ <;> intro hu <;>
    (unfold stepWebBaseUrl promptH addPrompt
     simp only [hds]
     simp [hty, hfw, hab, hu])

theorem C5_web_base_url_witness :
    stepWebBaseUrl {} { baseUrl := "www.example.com" } ⟨webProgram, {}, []⟩ =
      .ok ⟨{ webProgram with dataSource := some ⟨"web", ⟨none, none, some "https://www.example.com", some 1⟩⟩ },
           {}, ["baseUrl"]⟩ ∧
    stepWebBaseUrl {} { baseUrl := "ftp://x.com" } ⟨webProgram, {}, []⟩ =
      .error (⟨1, "Invalid URL provided", false⟩, ⟨webProgram, {}, ["baseUrl"]⟩) := by
  constructor
  · exact (C5_web_base_url {} { baseUrl := "www.example.com" } ⟨webProgram, {}, []⟩
      ⟨"web", { baseUrl := some "https://x.org", depth := some 1 }⟩ rfl rfl rfl
      (by decide)).2.1 rfl
  · exact (C5_web_base_url {} { baseUrl := "ftp://x.com" } ⟨webProgram, {}, []⟩
      ⟨"web", { baseUrl := some "https://x.org", depth := some 1 }⟩ rfl rfl rfl
      (by decide)).2.2 rfl

/-- C7 counterexample: the post-install action prompt is a resolution step
executed interactively, but its answer is written only to the output config;
the preferences table still has no post-install action after the run. -/
theorem C7_counterexample :
    ((askQuestions {} { action := "VSCode" } noActionProgram {}).toOption.map
        St.program).map QuestionArgs.postInstallAction = some (some "VSCode") ∧
    ((askQuestions {} { action := "VSCode" } noActionProgram {}).toOption.map
        St.preferences).map QuestionArgs.postInstallAction = some none ∧
    (askQuestions {} { action := "VSCode" } noActionProgram {}).toOption.map St.prompts =
      some ["postInstallAction"] :=
  ⟨rfl, rfl, rfl⟩

/-- C8 counterexample: the tool-selection multiselect passes no cancel
handlers, so when the operator aborts exactly at that prompt the run does not
exit; it completes successfully with the prompt issued and the tools field
left unset. -/
theorem C8_counterexample :
    ({ abortAt := some "tools" } : Answers).abortAt = some "tools" ∧
    (askQuestions {} { abortAt := some "tools" } agentProgram {}).toOption.map St.prompts =
      some ["tools"] ∧
    ((askQuestions {} { abortAt := some "tools" } agentProgram {}).toOption.map
        St.program).map QuestionArgs.tools = some none :=
  ⟨rfl, rfl, rfl⟩

/-- C9 counterexample: a successful CI run with nothing pre-supplied leaves
the data source, vector db, tools and embedding model undefined, although the
downstream generator (createApp) consumes all of them. -/
theorem C9_counterexample :
    (askQuestions ciEnv {} {} {}).toOption.isSome = true ∧
    ((askQuestions ciEnv {} {} {}).toOption.map St.program).map QuestionArgs.dataSource =
      some none ∧
    ((askQuestions ciEnv {} {} {}).toOption.map St.program).map QuestionArgs.vectorDb =
      some none ∧
    ((askQuestions ciEnv {} {} {}).toOption.map St.program).map QuestionArgs.tools =
      some none ∧
    ((askQuestions ciEnv {} {} {}).toOption.map St.program).map QuestionArgs.embeddingModel =
      some none :=
  ⟨rfl, rfl, rfl, rfl, rfl⟩

end CreateLlama

namespace Pinecone

/-- C10: `add` never resolves to the upserted ids: on success the result is
always the empty array, and for the empty input it resolves immediately
without creating the client or contacting the index. -/
theorem C10_add_returns_empty {V M : Type} (chunkSize : Nat)
    (upsertOk : List (PineconeRecord V M) -> Bool) (n2m : BaseNode V M -> M)
    (results : List (BaseNode V M)) :
    (∀ ids, (add chunkSize upsertOk n2m results).1 = Except.ok ids → ids = []) ∧
    (results = [] →
      add chunkSize upsertOk n2m results = (Except.ok [], ⟨false, []⟩)) := by
  constructor
  · intro ids h
    unfold add at h
    split at h
    · simpa using h.symm
    · dsimp only at h
      split at h
      · simpa using h.symm
      · cases h
  · intro h
    subst h
    rfl

theorem C10_add_returns_empty_witness :
    ([] : List String) = [] ∧
    add 2 (fun _ => true) (fun (n : BaseNode Nat Nat) => n.metadata) [] =
      (Except.ok [], ⟨false, []⟩) :=
  ⟨(C10_add_returns_empty 2 (fun _ => true) (fun n => n.metadata)
      [⟨"a", 1, 1⟩]).1 [] rfl,
   (C10_add_returns_empty 2 (fun _ => true)
      (fun (n : BaseNode Nat Nat) => n.metadata) []).2 rfl⟩

end Pinecone


namespace CreateLlama

/-! Skip lemmas: each resolution step leaves the state unchanged when its
target field is already set (truthy where the source tests truthiness) or its
gate is off. -/

theorem stepTemplate_skip (E : Env) (A : Answers) (st : St)
    (h : strTruthy st.program.template = true) : stepTemplate E A st = .ok st := by
  unfold stepTemplate; simp [h]

theorem stepFramework_skip (E : Env) (A : Answers) (st : St)
    (h : strTruthy st.program.framework = true) : stepFramework E A st = .ok st := by
  unfold stepFramework; simp [h]

theorem stepFrontend_skip_backend (E : Env) (A : Answers) (st : St)
    (hc : st.program.template = some "streaming" ∧
      (st.program.framework = some "express" ∨ st.program.framework = some "fastapi"))
    (hf : st.program.frontend ≠ none) : stepFrontend E A st = .ok st := by
  unfold stepFrontend
  rw [if_pos hc, if_neg hf]

theorem stepFrontend_skip_force (E : Env) (A : Answers) (st : St)
    (hc : ¬(st.program.template = some "streaming" ∧
      (st.program.framework = some "express" ∨ st.program.framework = some "fastapi")))
    (hf : st.program.frontend = some false) : stepFrontend E A st = .ok st := by
  unfold stepFrontend
  rw [if_neg hc, ← hf]

theorem stepUi_skip (E : Env) (A : Answers) (st : St)
    (h : strTruthy st.program.ui = true) : stepUi E A st = .ok st := by
  unfold stepUi
  simp [h]

theorem stepModel_skip (E : Env) (A : Answers) (st : St)
    (h : strTruthy st.program.model = true) : stepModel E A st = .ok st := by
  unfold stepModel; simp [h]

theorem stepEmbedding_skip (E : Env) (A : Answers) (st : St)
    (h : strTruthy st.program.embeddingModel = true) : stepEmbedding E A st = .ok st := by
  unfold stepEmbedding; simp [h]

theorem stepFiles_skip (E : Env) (st : St)
    (h : strTruthy st.program.files = false) : stepFiles E st = .ok st := by
  unfold stepFiles; simp [h]

theorem stepEngineDataSource_skip (E : Env) (A : Answers) (st : St)
    (h1 : strTruthy st.program.engine = true) (h2 : st.program.dataSource ≠ none) :
    stepEngineDataSource E A st = .ok st := by
  unfold stepEngineDataSource; simp [h1, h2]

theorem stepLlamaParse_skip (E : Env) (A : Answers) (st : St)
    (h : st.program.framework ≠ some "fastapi" ∨
      (dsType? st.program.dataSource ≠ some "file" ∧ dsType? st.program.dataSource ≠ some "folder")) :
    stepLlamaParse E A st = .ok st := by
  unfold stepLlamaParse
  cases hds : st.program.dataSource with
  | none => rfl
  | some ds =>
    dsimp only
    rw [if_neg]
    rintro ⟨hty, hfw⟩
    rcases h with h | ⟨h1, h2⟩
    · exact h hfw
    · rcases hty with hty | hty
      · exact h1 (by simp [dsType?, hds, hty])
      · exact h2 (by simp [dsType?, hds, hty])

theorem stepWebBaseUrl_skip (E : Env) (A : Answers) (st : St)
    (h : st.program.framework ≠ some "fastapi" ∨ dsType? st.program.dataSource ≠ some "web") :
    stepWebBaseUrl E A st = .ok st := by
  unfold stepWebBaseUrl
  cases hds : st.program.dataSource with
  | none => rfl
  | some ds =>
    dsimp only
    rw [if_neg]
    rintro ⟨hty, hfw⟩
    rcases h with h | h
    · exact h hfw
    · exact h (by simp [dsType?, hds, hty])

theorem stepVectorDb_skip (E : Env) (A : Answers) (st : St)
    (h : strTruthy st.program.vectorDb = true) : stepVectorDb E A st = .ok st := by
  unfold stepVectorDb; simp [h]

theorem stepTools_skip (E : Env) (A : Answers) (st : St)
    (h : st.program.tools ≠ none) : stepTools E A st = .ok st := by
  unfold stepTools; simp [h]

theorem stepOpenAiKey_skip (E : Env) (A : Answers) (st : St)
    (h : strTruthy st.program.openAiKey = true) : stepOpenAiKey E A st = .ok st := by
  unfold stepOpenAiKey; simp [h]

theorem stepEslint_skip (E : Env) (A : Answers) (st : St)
    (h : st.program.framework = some "fastapi" ∨ st.program.eslint ≠ none) :
    stepEslint E A st = .ok st := by
  unfold stepEslint
  rw [if_neg]
  rintro ⟨h1, h2⟩
  rcases h with h | h
  · exact h1 h
  · exact h h2

theorem askPostInstallActionF_skip (E : Env) (A : Answers) (st : St)
    (h : st.program.postInstallAction ≠ none) : askPostInstallActionF E A st = .ok st := by
  unfold askPostInstallActionF; simp [h]

/-- C2 amended: with every prompt-gating field pre-supplied (truthy where
the source tests truthiness), the files option unset, the template not
community or llamapack, the frontend flag already false unless the
streaming-plus-backend combination holds, and no fastapi file, folder or web
data-source block applying, the flow issues zero prompts and returns program
and preferences exactly as given, in CI and interactive mode alike. The
excluded combinations genuinely prompt or mutate (see the counterexample). -/
theorem C2_fully_supplied_identity (E : Env) (A : Answers) (p q : QuestionArgs)
    (h1 : strTruthy p.template = true)
    (h2 : p.template ≠ some "community")
    (h3 : p.template ≠ some "llamapack")
    (h4 : strTruthy p.framework = true)
    (h5 : (p.template = some "streaming" ∧
            (p.framework = some "express" ∨ p.framework = some "fastapi") ∧
            p.frontend ≠ none) ∨ p.frontend = some false)
    (h6 : strTruthy p.ui = true)
    (h7 : strTruthy p.model = true)
    (h8 : strTruthy p.embeddingModel = true)
    (h9 : strTruthy p.files = false)
    (h10 : strTruthy p.engine = true)
    (h11 : p.dataSource ≠ none)
    (h12 : p.framework ≠ some "fastapi" ∨
            (dsType? p.dataSource ≠ some "file" ∧ dsType? p.dataSource ≠ some "folder" ∧
             dsType? p.dataSource ≠ some "web"))
    (h13 : strTruthy p.vectorDb = true)
    (h14 : p.tools ≠ none)
    (h15 : strTruthy p.openAiKey = true)
    (h16 : p.framework = some "fastapi" ∨ p.eslint ≠ none)
    (h17 : p.postInstallAction ≠ none) :
    askQuestions E A p q = .ok ⟨p, q, []⟩ := by
  have hfr : stepFrontend E A ⟨p, q, []⟩ = .ok ⟨p, q, []⟩ := by
    by_cases hc : p.template = some "streaming" ∧
        (p.framework = some "express" ∨ p.framework = some "fastapi")
    · refine stepFrontend_skip_backend E A _ hc ?_
      rcases h5 with ⟨_, _, hf⟩ | hf
      · exact hf
      · simp [hf]
    · refine stepFrontend_skip_force E A _ hc ?_
      rcases h5 with ⟨ht, hw, _⟩ | hf
      · exact absurd ⟨ht, hw⟩ hc
      · exact hf
  unfold askQuestions
  rw [stepTemplate_skip E A _ h1]
  rw [andThen_ok]
  rw [if_neg h2, if_neg h3]
  rw [stepFramework_skip E A _ h4, andThen_ok]
  rw [hfr, andThen_ok]
  rw [stepUi_skip E A _ h6, andThen_ok]
  rw [stepModel_skip E A _ h7, andThen_ok]
  rw [stepEmbedding_skip E A _ h8, andThen_ok]
  rw [stepFiles_skip E _ h9, andThen_ok]
  rw [stepEngineDataSource_skip E A _ h10 h11, andThen_ok]
  rw [stepLlamaParse_skip E A _ (by tauto), andThen_ok]
  rw [stepWebBaseUrl_skip E A _ (by tauto), andThen_ok]
  rw [stepVectorDb_skip E A _ h13, andThen_ok]
  rw [stepTools_skip E A _ h14, andThen_ok]
  rw [stepOpenAiKey_skip E A _ h15, andThen_ok]
  rw [stepEslint_skip E A _ h16, andThen_ok]
  exact askPostInstallActionF_skip E A _ h17

theorem C2_fully_supplied_identity_witness :
    askQuestions {} {} fullProgram {} = .ok ⟨fullProgram, {}, []⟩ :=
  C2_fully_supplied_identity {} {} fullProgram {}
    rfl (by decide) (by decide) rfl (Or.inr rfl) rfl rfl rfl rfl rfl
    (by decide) (Or.inl (by decide)) rfl (by decide) rfl (Or.inr (by decide)) (by decide)

theorem stepTemplate_shape {E : Env} {A : Answers} {st st' : St}
    (h : stepTemplate E A st = .ok st') :
    st'.program = { st.program with template := st'.program.template } ∧
    st'.preferences = { st.preferences with template := st'.preferences.template } ∧
    (st'.prompts = st.prompts ∨ st'.prompts = st.prompts ++ ["template"]) := by
  unfold stepTemplate promptH addPrompt at h
  split at h
  · cases h
    exact ⟨rfl, rfl, Or.inl rfl⟩
  · split at h
    · cases h
      exact ⟨rfl, rfl, Or.inl rfl⟩
    · split at h
      · simp [andThen] at h
      · simp only [andThen_ok] at h
        cases h
        exact ⟨rfl, rfl, Or.inr rfl⟩

/-- C6: when the template resolves to community, the flow prompts once for
the community project path, writes it to program and preferences, and returns
immediately: apart from the template resolution itself every other field of
both records is exactly as given, and the only prompts are the template one
(when it was prompted) and the community-path one. -/
theorem C6_community_short_circuit (E : Env) (A : Answers) (p q : QuestionArgs) (st1 : St)
    (h1 : stepTemplate E A ⟨p, q, []⟩ = .ok st1)
    (h2 : st1.program.template = some "community")
    (h3 : A.abortAt ≠ some "communityProjectPath") :
    askQuestions E A p q =
      .ok ⟨{ st1.program with communityProjectPath := some A.communityProjectPath },
           { st1.preferences with communityProjectPath := some A.communityProjectPath },
           st1.prompts ++ ["communityProjectPath"]⟩ ∧
    st1.program = { p with template := some "community" } ∧
    st1.preferences = { q with template := st1.preferences.template } ∧
    (st1.prompts = [] ∨ st1.prompts = ["template"]) := by
  obtain ⟨hp, hq, hpr⟩ := stepTemplate_shape h1
  refine ⟨?_, by rw [hp, ← h2], hq, by simpa using hpr⟩
  unfold askQuestions
  rw [h1, andThen_ok, if_pos h2]
  unfold stepCommunity promptH addPrompt
  rw [if_neg h3]
  rfl

theorem C6_community_short_circuit_witness :
    askQuestions {} { communityProjectPath := "proj" }
        { template := some "community", model := some "m" } {} =
      .ok ⟨{ template := some "community", model := some "m",
             communityProjectPath := some "proj" },
           { communityProjectPath := some "proj" }, ["communityProjectPath"]⟩ :=
  (C6_community_short_circuit {} { communityProjectPath := "proj" }
    { template := some "community", model := some "m" } {}
    ⟨{ template := some "community", model := some "m" }, {}, []⟩
    rfl rfl (by decide)).1

/-! CI-mode lemmas: with the CI flag set, each guarded step resolves its
field from preference-or-default without prompting. Steps whose outcome
depends on gates are stated existentially: they write some value to their own
field and touch nothing else. -/

theorem stepTemplate_ci (E : Env) (A : Answers) (st : St)
    (hci : E.isCI = true) (h : strTruthy st.program.template = false) :
    stepTemplate E A st =
      .ok ⟨{ st.program with template := prefOr st.preferences.template defaults.template },
           st.preferences, st.prompts⟩ := by
  unfold stepTemplate; simp [h, hci]

theorem stepFramework_ci (E : Env) (A : Answers) (st : St)
    (hci : E.isCI = true) (h : strTruthy st.program.framework = false) :
    stepFramework E A st =
      .ok ⟨{ st.program with framework := prefOr st.preferences.framework defaults.framework },
           st.preferences, st.prompts⟩ := by
  unfold stepFramework; simp [h, hci]

theorem stepModel_ci (E : Env) (A : Answers) (st : St)
    (hci : E.isCI = true) (h : strTruthy st.program.model = false) :
    stepModel E A st =
      .ok ⟨{ st.program with model := prefOr st.preferences.model defaults.model },
           st.preferences, st.prompts⟩ := by
  unfold stepModel; simp [h, hci]

theorem stepEngineDataSource_ci (E : Env) (A : Answers) (st : St)
    (hci : E.isCI = true) (h : strTruthy st.program.engine = false) :
    stepEngineDataSource E A st =
      .ok ⟨{ st.program with engine := prefOr st.preferences.engine defaults.engine },
           st.preferences, st.prompts⟩ := by
  unfold stepEngineDataSource; simp [h, hci]

theorem askPostInstallActionF_ci (E : Env) (A : Answers) (st : St)
    (hci : E.isCI = true) (h : st.program.postInstallAction = none) :
    askPostInstallActionF E A st =
      .ok ⟨{ st.program with postInstallAction := prefOr st.preferences.postInstallAction defaults.postInstallAction },
           st.preferences, st.prompts⟩ := by
  unfold askPostInstallActionF; simp [h, hci]

theorem stepFrontend_ci_val (E : Env) (A : Answers) (st : St)
    (hci : E.isCI = true) (h : st.program.frontend = none) :
    stepFrontend E A st = .ok ⟨{ st.program with frontend := if st.program.template = some "streaming" ∧ (st.program.framework = some "express" ∨ st.program.framework = some "fastapi") then prefOr st.preferences.frontend defaults.frontend else some false },
      st.preferences, st.prompts⟩ := by
  unfold stepFrontend
  by_cases hc : st.program.template = some "streaming" ∧
      (st.program.framework = some "express" ∨ st.program.framework = some "fastapi")
  · simp [hc, h, hci]
  · simp [hc]

theorem stepUi_ci_val (E : Env) (A : Answers) (st : St)
    (hci : E.isCI = true) (h : strTruthy st.program.ui = false) :
    stepUi E A st = .ok ⟨{ st.program with ui := if st.program.framework = some "nextjs" ∨ boolTruthy st.program.frontend = true then prefOr st.preferences.ui defaults.ui else st.program.ui },
      st.preferences, st.prompts⟩ := by
  unfold stepUi
  by_cases hc : st.program.framework = some "nextjs" ∨ boolTruthy st.program.frontend = true
  · simp [hc, h, hci]
  · simp [hc]

theorem stepEmbedding_ci_val (E : Env) (A : Answers) (st : St)
    (hci : E.isCI = true) (h : strTruthy st.program.embeddingModel = false) :
    stepEmbedding E A st = .ok ⟨{ st.program with embeddingModel := if st.program.framework = some "fastapi" then prefOr st.preferences.embeddingModel defaults.embeddingModel else st.program.embeddingModel },
      st.preferences, st.prompts⟩ := by
  unfold stepEmbedding
  by_cases hc : st.program.framework = some "fastapi"
  · simp [h, hc, hci]
  · simp [hc]

theorem stepLlamaParse_noDs (E : Env) (A : Answers) (st : St)
    (h : st.program.dataSource = none) : stepLlamaParse E A st = .ok st := by
  unfold stepLlamaParse
  rw [h]

theorem stepVectorDb_ci_val (E : Env) (A : Answers) (st : St)
    (hci : E.isCI = true) (h : strTruthy st.program.vectorDb = false) :
    stepVectorDb E A st = .ok ⟨{ st.program with vectorDb := if st.program.engine ≠ some "simple" then prefOr st.preferences.vectorDb defaults.vectorDb else st.program.vectorDb },
      st.preferences, st.prompts⟩ := by
  unfold stepVectorDb
  by_cases hc : st.program.engine = some "simple"
  · simp [hc]
    rw [← hc]
  · simp [hc, h, hci]

theorem stepTools_ci_val (E : Env) (A : Answers) (st : St)
    (hci : E.isCI = true) (h : st.program.tools = none) :
    stepTools E A st = .ok ⟨{ st.program with tools := if st.program.framework = some "fastapi" ∧ st.program.engine = some "context" then prefOr st.preferences.tools defaults.tools else st.program.tools },
      st.preferences, st.prompts⟩ := by
  unfold stepTools
  by_cases hc : st.program.framework = some "fastapi" ∧ st.program.engine = some "context"
  · simp [h, hc, hci]
  · simp [hc, h]
    rw [← h]

theorem stepEslint_ci_val (E : Env) (A : Answers) (st : St)
    (hci : E.isCI = true) (h : st.program.eslint = none) :
    stepEslint E A st = .ok ⟨{ st.program with eslint := if st.program.framework ≠ some "fastapi" then prefOr st.preferences.eslint defaults.eslint else st.program.eslint },
      st.preferences, st.prompts⟩ := by
  unfold stepEslint
  by_cases hc : st.program.framework = some "fastapi"
  · simp [hc]
    rw [← hc]
  · simp [hc, h, hci]

/-- C3 (amended): in CI mode with a truthy primary key pre-supplied and the
template preference not resolving to community or llamapack, the run issues
no prompt and resolves every CI-guarded field whose gate holds to the stored
preference when present and otherwise to the hardcoded default: template,
framework, model, engine and the post-install action unconditionally;
frontend to preference-else-false when the streaming-plus-backend gate holds
and to the forced false otherwise; ui, embeddingModel, vectorDb, tools and
eslint to preference-else-default exactly when their gates hold and left
unset otherwise. The llamaCloudKey gate (file or folder data source) can
never hold in CI because the data source is left unresolved, and the OpenAI
key had to be supplied up front: its prompt has no CI guard (see the
counterexample). -/
theorem C3_ci_all_fields (E : Env) (A : Answers) (q : QuestionArgs)
    (hci : E.isCI = true)
    (ht1 : prefOr q.template (some "streaming") ≠ some "community")
    (ht2 : prefOr q.template (some "streaming") ≠ some "llamapack") :
    ∃ st : St,
      askQuestions E A { openAiKey := some "sk-test" } q = .ok st ∧
      st.prompts = [] ∧
      st.preferences = q ∧
      st.program.template = prefOr q.template (some "streaming") ∧
      st.program.framework = prefOr q.framework (some "nextjs") ∧
      st.program.frontend = (if prefOr q.template (some "streaming") = some "streaming" ∧ (prefOr q.framework (some "nextjs") = some "express" ∨ prefOr q.framework (some "nextjs") = some "fastapi") then prefOr q.frontend (some false) else some false) ∧
      st.program.ui = (if prefOr q.framework (some "nextjs") = some "nextjs" ∨ boolTruthy (if prefOr q.template (some "streaming") = some "streaming" ∧ (prefOr q.framework (some "nextjs") = some "express" ∨ prefOr q.framework (some "nextjs") = some "fastapi") then prefOr q.frontend (some false) else some false) = true then prefOr q.ui (some "html") else none) ∧
      st.program.model = prefOr q.model (some "gpt-3.5-turbo") ∧
      st.program.embeddingModel = (if prefOr q.framework (some "nextjs") = some "fastapi" then prefOr q.embeddingModel (some "text-embedding-ada-002") else none) ∧
      st.program.engine = prefOr q.engine (some "simple") ∧
      st.program.dataSource = none ∧
      st.program.llamaParse = none ∧
      st.program.llamaCloudKey = none ∧
      st.program.vectorDb = (if prefOr q.engine (some "simple") ≠ some "simple" then prefOr q.vectorDb none else none) ∧
      st.program.tools = (if prefOr q.framework (some "nextjs") = some "fastapi" ∧ prefOr q.engine (some "simple") = some "context" then prefOr q.tools (some []) else none) ∧
      st.program.openAiKey = some "sk-test" ∧
      st.program.eslint = (if prefOr q.framework (some "nextjs") ≠ some "fastapi" then prefOr q.eslint (some true) else none) ∧
      st.program.postInstallAction = prefOr q.postInstallAction (some "dependencies") ∧
      st.program.files = none ∧
      st.program.communityProjectPath = none ∧
      st.program.llamapack = none := by
  unfold askQuestions
  rw [stepTemplate_ci E A ⟨{ openAiKey := some "sk-test" }, q, []⟩ hci rfl, andThen_ok]
  dsimp only [defaults]
  rw [if_neg ht1, if_neg ht2]
  rw [stepFramework_ci E A ⟨{ template := prefOr q.template (some "streaming"), openAiKey := some "sk-test" }, q, []⟩ hci rfl, andThen_ok]
  dsimp only [defaults]
  rw [stepFrontend_ci_val E A ⟨{ template := prefOr q.template (some "streaming"), framework := prefOr q.framework (some "nextjs"), openAiKey := some "sk-test" }, q, []⟩ hci rfl, andThen_ok]
  dsimp only [defaults]
  rw [stepUi_ci_val E A ⟨{ template := prefOr q.template (some "streaming"), framework := prefOr q.framework (some "nextjs"), frontend := (if prefOr q.template (some "streaming") = some "streaming" ∧ (prefOr q.framework (some "nextjs") = some "express" ∨ prefOr q.framework (some "nextjs") = some "fastapi") then prefOr q.frontend (some false) else some false), openAiKey := some "sk-test" }, q, []⟩ hci rfl, andThen_ok]
  dsimp only [defaults]
  rw [stepModel_ci E A ⟨{ template := prefOr q.template (some "streaming"), framework := prefOr q.framework (some "nextjs"), frontend := (if prefOr q.template (some "streaming") = some "streaming" ∧ (prefOr q.framework (some "nextjs") = some "express" ∨ prefOr q.framework (some "nextjs") = some "fastapi") then prefOr q.frontend (some false) else some false), ui := (if prefOr q.framework (some "nextjs") = some "nextjs" ∨ boolTruthy (if prefOr q.template (some "streaming") = some "streaming" ∧ (prefOr q.framework (some "nextjs") = some "express" ∨ prefOr q.framework (some "nextjs") = some "fastapi") then prefOr q.frontend (some false) else some false) = true then prefOr q.ui (some "html") else none), openAiKey := some "sk-test" }, q, []⟩ hci rfl, andThen_ok]
  dsimp only [defaults]
  rw [stepEmbedding_ci_val E A ⟨{ template := prefOr q.template (some "streaming"), framework := prefOr q.framework (some "nextjs"), frontend := (if prefOr q.template (some "streaming") = some "streaming" ∧ (prefOr q.framework (some "nextjs") = some "express" ∨ prefOr q.framework (some "nextjs") = some "fastapi") then prefOr q.frontend (some false) else some false), ui := (if prefOr q.framework (some "nextjs") = some "nextjs" ∨ boolTruthy (if prefOr q.template (some "streaming") = some "streaming" ∧ (prefOr q.framework (some "nextjs") = some "express" ∨ prefOr q.framework (some "nextjs") = some "fastapi") then prefOr q.frontend (some false) else some false) = true then prefOr q.ui (some "html") else none), model := prefOr q.model (some "gpt-3.5-turbo"), openAiKey := some "sk-test" }, q, []⟩ hci rfl, andThen_ok]
  dsimp only [defaults]
  rw [stepFiles_skip E ⟨{ template := prefOr q.template (some "streaming"), framework := prefOr q.framework (some "nextjs"), frontend := (if prefOr q.template (some "streaming") = some "streaming" ∧ (prefOr q.framework (some "nextjs") = some "express" ∨ prefOr q.framework (some "nextjs") = some "fastapi") then prefOr q.frontend (some false) else some false), ui := (if prefOr q.framework (some "nextjs") = some "nextjs" ∨ boolTruthy (if prefOr q.template (some "streaming") = some "streaming" ∧ (prefOr q.framework (some "nextjs") = some "express" ∨ prefOr q.framework (some "nextjs") = some "fastapi") then prefOr q.frontend (some false) else some false) = true then prefOr q.ui (some "html") else none), model := prefOr q.model (some "gpt-3.5-turbo"), embeddingModel := (if prefOr q.framework (some "nextjs") = some "fastapi" then prefOr q.embeddingModel (some "text-embedding-ada-002") else none), openAiKey := some "sk-test" }, q, []⟩ rfl, andThen_ok]
  rw [stepEngineDataSource_ci E A ⟨{ template := prefOr q.template (some "streaming"), framework := prefOr q.framework (some "nextjs"), frontend := (if prefOr q.template (some "streaming") = some "streaming" ∧ (prefOr q.framework (some "nextjs") = some "express" ∨ prefOr q.framework (some "nextjs") = some "fastapi") then prefOr q.frontend (some false) else some false), ui := (if prefOr q.framework (some "nextjs") = some "nextjs" ∨ boolTruthy (if prefOr q.template (some "streaming") = some "streaming" ∧ (prefOr q.framework (some "nextjs") = some "express" ∨ prefOr q.framework (some "nextjs") = some "fastapi") then prefOr q.frontend (some false) else some false) = true then prefOr q.ui (some "html") else none), model := prefOr q.model (some "gpt-3.5-turbo"), embeddingModel := (if prefOr q.framework (some "nextjs") = some "fastapi" then prefOr q.embeddingModel (some "text-embedding-ada-002") else none), openAiKey := some "sk-test" }, q, []⟩ hci rfl, andThen_ok]
  dsimp only [defaults]
  rw [stepLlamaParse_noDs E A ⟨{ template := prefOr q.template (some "streaming"), framework := prefOr q.framework (some "nextjs"), frontend := (if prefOr q.template (some "streaming") = some "streaming" ∧ (prefOr q.framework (some "nextjs") = some "express" ∨ prefOr q.framework (some "nextjs") = some "fastapi") then prefOr q.frontend (some false) else some false), ui := (if prefOr q.framework (some "nextjs") = some "nextjs" ∨ boolTruthy (if prefOr q.template (some "streaming") = some "streaming" ∧ (prefOr q.framework (some "nextjs") = some "express" ∨ prefOr q.framework (some "nextjs") = some "fastapi") then prefOr q.frontend (some false) else some false) = true then prefOr q.ui (some "html") else none), model := prefOr q.model (some "gpt-3.5-turbo"), embeddingModel := (if prefOr q.framework (some "nextjs") = some "fastapi" then prefOr q.embeddingModel (some "text-embedding-ada-002") else none), engine := prefOr q.engine (some "simple"), openAiKey := some "sk-test" }, q, []⟩ rfl, andThen_ok]
  rw [stepWebBaseUrl_skip E A ⟨{ template := prefOr q.template (some "streaming"), framework := prefOr q.framework (some "nextjs"), frontend := (if prefOr q.template (some "streaming") = some "streaming" ∧ (prefOr q.framework (some "nextjs") = some "express" ∨ prefOr q.framework (some "nextjs") = some "fastapi") then prefOr q.frontend (some false) else some false), ui := (if prefOr q.framework (some "nextjs") = some "nextjs" ∨ boolTruthy (if prefOr q.template (some "streaming") = some "streaming" ∧ (prefOr q.framework (some "nextjs") = some "express" ∨ prefOr q.framework (some "nextjs") = some "fastapi") then prefOr q.frontend (some false) else some false) = true then prefOr q.ui (some "html") else none), model := prefOr q.model (some "gpt-3.5-turbo"), embeddingModel := (if prefOr q.framework (some "nextjs") = some "fastapi" then prefOr q.embeddingModel (some "text-embedding-ada-002") else none), engine := prefOr q.engine (some "simple"), openAiKey := some "sk-test" }, q, []⟩ (Or.inr (by simp [dsType?])), andThen_ok]
  rw [stepVectorDb_ci_val E A ⟨{ template := prefOr q.template (some "streaming"), framework := prefOr q.framework (some "nextjs"), frontend := (if prefOr q.template (some "streaming") = some "streaming" ∧ (prefOr q.framework (some "nextjs") = some "express" ∨ prefOr q.framework (some "nextjs") = some "fastapi") then prefOr q.frontend (some false) else some false), ui := (if prefOr q.framework (some "nextjs") = some "nextjs" ∨ boolTruthy (if prefOr q.template (some "streaming") = some "streaming" ∧ (prefOr q.framework (some "nextjs") = some "express" ∨ prefOr q.framework (some "nextjs") = some "fastapi") then prefOr q.frontend (some false) else some false) = true then prefOr q.ui (some "html") else none), model := prefOr q.model (some "gpt-3.5-turbo"), embeddingModel := (if prefOr q.framework (some "nextjs") = some "fastapi" then prefOr q.embeddingModel (some "text-embedding-ada-002") else none), engine := prefOr q.engine (some "simple"), openAiKey := some "sk-test" }, q, []⟩ hci rfl, andThen_ok]
  dsimp only [defaults]
  rw [stepTools_ci_val E A ⟨{ template := prefOr q.template (some "streaming"), framework := prefOr q.framework (some "nextjs"), frontend := (if prefOr q.template (some "streaming") = some "streaming" ∧ (prefOr q.framework (some "nextjs") = some "express" ∨ prefOr q.framework (some "nextjs") = some "fastapi") then prefOr q.frontend (some false) else some false), ui := (if prefOr q.framework (some "nextjs") = some "nextjs" ∨ boolTruthy (if prefOr q.template (some "streaming") = some "streaming" ∧ (prefOr q.framework (some "nextjs") = some "express" ∨ prefOr q.framework (some "nextjs") = some "fastapi") then prefOr q.frontend (some false) else some false) = true then prefOr q.ui (some "html") else none), model := prefOr q.model (some "gpt-3.5-turbo"), embeddingModel := (if prefOr q.framework (some "nextjs") = some "fastapi" then prefOr q.embeddingModel (some "text-embedding-ada-002") else none), engine := prefOr q.engine (some "simple"), vectorDb := (if prefOr q.engine (some "simple") ≠ some "simple" then prefOr q.vectorDb none else none), openAiKey := some "sk-test" }, q, []⟩ hci rfl, andThen_ok]
  dsimp only [defaults]
  rw [stepOpenAiKey_skip E A ⟨{ template := prefOr q.template (some "streaming"), framework := prefOr q.framework (some "nextjs"), frontend := (if prefOr q.template (some "streaming") = some "streaming" ∧ (prefOr q.framework (some "nextjs") = some "express" ∨ prefOr q.framework (some "nextjs") = some "fastapi") then prefOr q.frontend (some false) else some false), ui := (if prefOr q.framework (some "nextjs") = some "nextjs" ∨ boolTruthy (if prefOr q.template (some "streaming") = some "streaming" ∧ (prefOr q.framework (some "nextjs") = some "express" ∨ prefOr q.framework (some "nextjs") = some "fastapi") then prefOr q.frontend (some false) else some false) = true then prefOr q.ui (some "html") else none), model := prefOr q.model (some "gpt-3.5-turbo"), embeddingModel := (if prefOr q.framework (some "nextjs") = some "fastapi" then prefOr q.embeddingModel (some "text-embedding-ada-002") else none), engine := prefOr q.engine (some "simple"), vectorDb := (if prefOr q.engine (some "simple") ≠ some "simple" then prefOr q.vectorDb none else none), tools := (if prefOr q.framework (some "nextjs") = some "fastapi" ∧ prefOr q.engine (some "simple") = some "context" then prefOr q.tools (some []) else none), openAiKey := some "sk-test" }, q, []⟩ rfl, andThen_ok]
  rw [stepEslint_ci_val E A ⟨{ template := prefOr q.template (some "streaming"), framework := prefOr q.framework (some "nextjs"), frontend := (if prefOr q.template (some "streaming") = some "streaming" ∧ (prefOr q.framework (some "nextjs") = some "express" ∨ prefOr q.framework (some "nextjs") = some "fastapi") then prefOr q.frontend (some false) else some false), ui := (if prefOr q.framework (some "nextjs") = some "nextjs" ∨ boolTruthy (if prefOr q.template (some "streaming") = some "streaming" ∧ (prefOr q.framework (some "nextjs") = some "express" ∨ prefOr q.framework (some "nextjs") = some "fastapi") then prefOr q.frontend (some false) else some false) = true then prefOr q.ui (some "html") else none), model := prefOr q.model (some "gpt-3.5-turbo"), embeddingModel := (if prefOr q.framework (some "nextjs") = some "fastapi" then prefOr q.embeddingModel (some "text-embedding-ada-002") else none), engine := prefOr q.engine (some "simple"), vectorDb := (if prefOr q.engine (some "simple") ≠ some "simple" then prefOr q.vectorDb none else none), tools := (if prefOr q.framework (some "nextjs") = some "fastapi" ∧ prefOr q.engine (some "simple") = some "context" then prefOr q.tools (some []) else none), openAiKey := some "sk-test" }, q, []⟩ hci rfl, andThen_ok]
  dsimp only [defaults]
  rw [askPostInstallActionF_ci E A ⟨{ template := prefOr q.template (some "streaming"), framework := prefOr q.framework (some "nextjs"), frontend := (if prefOr q.template (some "streaming") = some "streaming" ∧ (prefOr q.framework (some "nextjs") = some "express" ∨ prefOr q.framework (some "nextjs") = some "fastapi") then prefOr q.frontend (some false) else some false), ui := (if prefOr q.framework (some "nextjs") = some "nextjs" ∨ boolTruthy (if prefOr q.template (some "streaming") = some "streaming" ∧ (prefOr q.framework (some "nextjs") = some "express" ∨ prefOr q.framework (some "nextjs") = some "fastapi") then prefOr q.frontend (some false) else some false) = true then prefOr q.ui (some "html") else none), model := prefOr q.model (some "gpt-3.5-turbo"), embeddingModel := (if prefOr q.framework (some "nextjs") = some "fastapi" then prefOr q.embeddingModel (some "text-embedding-ada-002") else none), engine := prefOr q.engine (some "simple"), vectorDb := (if prefOr q.engine (some "simple") ≠ some "simple" then prefOr q.vectorDb none else none), tools := (if prefOr q.framework (some "nextjs") = some "fastapi" ∧ prefOr q.engine (some "simple") = some "context" then prefOr q.tools (some []) else none), eslint := (if prefOr q.framework (some "nextjs") ≠ some "fastapi" then prefOr q.eslint (some true) else none), openAiKey := some "sk-test" }, q, []⟩ hci rfl]
  dsimp only [defaults]
  exact ⟨_, rfl, rfl, rfl, rfl, rfl, rfl, rfl, rfl, rfl, rfl, rfl, rfl, rfl, rfl, rfl, rfl, rfl, rfl, rfl, rfl, rfl⟩

theorem C3_ci_all_fields_witness :
    ∃ st : St,
      askQuestions ciEnv {} { openAiKey := some "sk-test" }
          { template := some "streaming", model := some "custom-model" } = .ok st ∧
      st.prompts = [] ∧
      st.preferences = ({ template := some "streaming", model := some "custom-model" } : QuestionArgs) ∧
      st.program.template = prefOr ({ template := some "streaming", model := some "custom-model" } : QuestionArgs).template (some "streaming") ∧
      st.program.framework = prefOr ({ template := some "streaming", model := some "custom-model" } : QuestionArgs).framework (some "nextjs") ∧
      st.program.frontend = (if prefOr ({ template := some "streaming", model := some "custom-model" } : QuestionArgs).template (some "streaming") = some "streaming" ∧ (prefOr ({ template := some "streaming", model := some "custom-model" } : QuestionArgs).framework (some "nextjs") = some "express" ∨ prefOr ({ template := some "streaming", model := some "custom-model" } : QuestionArgs).framework (some "nextjs") = some "fastapi") then prefOr ({ template := some "streaming", model := some "custom-model" } : QuestionArgs).frontend (some false) else some false) ∧
      st.program.ui = (if prefOr ({ template := some "streaming", model := some "custom-model" } : QuestionArgs).framework (some "nextjs") = some "nextjs" ∨ boolTruthy (if prefOr ({ template := some "streaming", model := some "custom-model" } : QuestionArgs).template (some "streaming") = some "streaming" ∧ (prefOr ({ template := some "streaming", model := some "custom-model" } : QuestionArgs).framework (some "nextjs") = some "express" ∨ prefOr ({ template := some "streaming", model := some "custom-model" } : QuestionArgs).framework (some "nextjs") = some "fastapi") then prefOr ({ template := some "streaming", model := some "custom-model" } : QuestionArgs).frontend (some false) else some false) = true then prefOr ({ template := some "streaming", model := some "custom-model" } : QuestionArgs).ui (some "html") else none) ∧
      st.program.model = prefOr ({ template := some "streaming", model := some "custom-model" } : QuestionArgs).model (some "gpt-3.5-turbo") ∧
      st.program.embeddingModel = (if prefOr ({ template := some "streaming", model := some "custom-model" } : QuestionArgs).framework (some "nextjs") = some "fastapi" then prefOr ({ template := some "streaming", model := some "custom-model" } : QuestionArgs).embeddingModel (some "text-embedding-ada-002") else none) ∧
      st.program.engine = prefOr ({ template := some "streaming", model := some "custom-model" } : QuestionArgs).engine (some "simple") ∧
      st.program.dataSource = none ∧
      st.program.llamaParse = none ∧
      st.program.llamaCloudKey = none ∧
      st.program.vectorDb = (if prefOr ({ template := some "streaming", model := some "custom-model" } : QuestionArgs).engine (some "simple") ≠ some "simple" then prefOr ({ template := some "streaming", model := some "custom-model" } : QuestionArgs).vectorDb none else none) ∧
      st.program.tools = (if prefOr ({ template := some "streaming", model := some "custom-model" } : QuestionArgs).framework (some "nextjs") = some "fastapi" ∧ prefOr ({ template := some "streaming", model := some "custom-model" } : QuestionArgs).engine (some "simple") = some "context" then prefOr ({ template := some "streaming", model := some "custom-model" } : QuestionArgs).tools (some []) else none) ∧
      st.program.openAiKey = some "sk-test" ∧
      st.program.eslint = (if prefOr ({ template := some "streaming", model := some "custom-model" } : QuestionArgs).framework (some "nextjs") ≠ some "fastapi" then prefOr ({ template := some "streaming", model := some "custom-model" } : QuestionArgs).eslint (some true) else none) ∧
      st.program.postInstallAction = prefOr ({ template := some "streaming", model := some "custom-model" } : QuestionArgs).postInstallAction (some "dependencies") ∧
      st.program.files = none ∧
      st.program.communityProjectPath = none ∧
      st.program.llamapack = none :=
  C3_ci_all_fields ciEnv {} { template := some "streaming", model := some "custom-model" }
    rfl (by decide) (by decide)


theorem promptH_ok {name : String} {A : Answers} {st st' : St}
    (h : promptH name A st = .ok st') : st' = addPrompt name st := by
  unfold promptH at h
  split at h
  · cases h
  · cases h; rfl

theorem askPostInstallActionF_preserves_preferences {E : Env} {A : Answers} {st st' : St}
    (h : askPostInstallActionF E A st = .ok st') : st'.preferences = st.preferences := by
  unfold askPostInstallActionF at h
  split at h
  · split at h
    · cases h; rfl
    · obtain ⟨st1, h1, h2⟩ := andThen_ok_elim h
      have e := promptH_ok h1
      cases h2
      subst e
      rfl
  · cases h; rfl

theorem stepWebBaseUrl_preserves_preferences {E : Env} {A : Answers} {st st' : St}
    (h : stepWebBaseUrl E A st = .ok st') : st'.preferences = st.preferences := by
  unfold stepWebBaseUrl at h
  cases hds : st.program.dataSource with
  | none => rw [hds] at h; dsimp only at h; cases h; rfl
  | some ds =>
    rw [hds] at h
    dsimp only at h
    split at h
    · obtain ⟨st1, h1, h2⟩ := andThen_ok_elim h
      have e := promptH_ok h1
      split at h2
      · cases h2
        subst e
        rfl
      · cases h2
    · cases h; rfl

theorem stepLlamaParse_preserves_preferences {E : Env} {A : Answers} {st st' : St}
    (h : stepLlamaParse E A st = .ok st') : st'.preferences = st.preferences := by
  unfold stepLlamaParse at h
  cases hds : st.program.dataSource with
  | none => rw [hds] at h; dsimp only at h; cases h; rfl
  | some ds =>
    rw [hds] at h
    dsimp only at h
    split at h
    · split at h
      · cases h; rfl
      · obtain ⟨st2, h1, h2⟩ := andThen_ok_elim h
        have hpref2 : st2.preferences = st.preferences := by
          split at h1
          · obtain ⟨st3, h3, h4⟩ := andThen_ok_elim h1
            have e3 := promptH_ok h3
            cases h4
            subst e3
            rfl
          · cases h1; rfl
        split at h2
        · obtain ⟨st4, h5, h6⟩ := andThen_ok_elim h2
          have e5 := promptH_ok h5
          cases h6
          subst e5
          simpa [addPrompt] using hpref2
        · cases h2
          exact hpref2
    · cases h; rfl

theorem stepEngineDataSource_preserves_preferences {E : Env} {A : Answers} {st st' : St}
    (h : stepEngineDataSource E A st = .ok st') : st'.preferences = st.preferences := by
  unfold stepEngineDataSource at h
  split at h
  · split at h
    · cases h; rfl
    · obtain ⟨st1, h1, h2⟩ := andThen_ok_elim h
      have e := promptH_ok h1
      subst e
      split at h2
      · cases h2; rfl
      · split at h2
        · cases h2; rfl
        · split at h2
          · split at h2
            · cases h2
            · cases h2; rfl
          · split at h2
            · split at h2
              · cases h2
              · cases h2; rfl
            · split at h2
              · cases h2; rfl
              · cases h2; rfl
  · split at h
    · split at h
      · cases h; rfl
      · split at h
        · cases h; rfl
        · cases h; rfl
    · cases h; rfl

/-- C7 amended: interactive answers are always written into the output
config, but only the template, community-path, llamapack, framework,
frontend, ui, model, embedding-model, vector-db, tools, OpenAI-key and
eslint steps also write the preferences side table; the engine/data-source
selection, the LlamaParse toggle and LlamaCloud key, the website base URL
and the post-install action leave preferences untouched. -/
theorem C7_interactive_write_targets (E : Env) (A : Answers) :
    (∀ st : St, E.isCI = false → strTruthy st.program.template = false →
      A.abortAt ≠ some "template" →
      stepTemplate E A st = .ok ⟨{ st.program with template := some A.template },
        { st.preferences with template := some A.template }, st.prompts ++ ["template"]⟩) ∧
    (∀ st : St, A.abortAt ≠ some "communityProjectPath" →
      stepCommunity E A st = .ok ⟨{ st.program with communityProjectPath := some A.communityProjectPath },
        { st.preferences with communityProjectPath := some A.communityProjectPath },
        st.prompts ++ ["communityProjectPath"]⟩) ∧
    (∀ st : St, A.abortAt ≠ some "llamapack" →
      stepLlamapack E A st = .ok ⟨{ st.program with llamapack := some A.llamapack },
        { st.preferences with llamapack := some A.llamapack }, st.prompts ++ ["llamapack"]⟩) ∧
    (∀ st : St, E.isCI = false → strTruthy st.program.framework = false →
      A.abortAt ≠ some "framework" →
      stepFramework E A st = .ok ⟨{ st.program with framework := some A.framework },
        { st.preferences with framework := some A.framework }, st.prompts ++ ["framework"]⟩) ∧
    (∀ st : St, E.isCI = false → st.program.template = some "streaming" →
      (st.program.framework = some "express" ∨ st.program.framework = some "fastapi") →
      st.program.frontend = none → A.abortAt ≠ some "frontend" →
      stepFrontend E A st = .ok ⟨{ st.program with frontend := some A.frontend },
        { st.preferences with frontend := some A.frontend }, st.prompts ++ ["frontend"]⟩) ∧
    (∀ st : St, E.isCI = false →
      (st.program.framework = some "nextjs" ∨ boolTruthy st.program.frontend = true) →
      strTruthy st.program.ui = false → A.abortAt ≠ some "ui" →
      stepUi E A st = .ok ⟨{ st.program with ui := some A.ui },
        { st.preferences with ui := some A.ui }, st.prompts ++ ["ui"]⟩) ∧
    (∀ st : St, E.isCI = false → strTruthy st.program.model = false →
      A.abortAt ≠ some "model" →
      stepModel E A st = .ok ⟨{ st.program with model := some A.model },
        { st.preferences with model := some A.model }, st.prompts ++ ["model"]⟩) ∧
    (∀ st : St, E.isCI = false → strTruthy st.program.embeddingModel = false →
      st.program.framework = some "fastapi" → A.abortAt ≠ some "embeddingModel" →
      stepEmbedding E A st = .ok ⟨{ st.program with embeddingModel := some A.embeddingModel },
        { st.preferences with embeddingModel := some A.embeddingModel },
        st.prompts ++ ["embeddingModel"]⟩) ∧
    (∀ st : St, E.isCI = false → st.program.engine ≠ some "simple" →
      strTruthy st.program.vectorDb = false → A.abortAt ≠ some "vectorDb" →
      stepVectorDb E A st = .ok ⟨{ st.program with vectorDb := some A.vectorDb },
        { st.preferences with vectorDb := some A.vectorDb }, st.prompts ++ ["vectorDb"]⟩) ∧
    (∀ st : St, E.isCI = false → st.program.tools = none →
      st.program.framework = some "fastapi" → st.program.engine = some "context" →
      A.abortAt ≠ some "tools" →
      stepTools E A st = .ok ⟨{ st.program with tools := some (A.toolsName.filterMap (fun n => E.supportedTools.find? (fun t => t.name == n))) },
        { st.preferences with tools := some (A.toolsName.filterMap (fun n => E.supportedTools.find? (fun t => t.name == n))) },
        st.prompts ++ ["tools"]⟩) ∧
    (∀ st : St, strTruthy st.program.openAiKey = false → A.abortAt ≠ some "openAiKey" →
      stepOpenAiKey E A st = .ok ⟨{ st.program with openAiKey := some A.openAiKey },
        { st.preferences with openAiKey := some A.openAiKey }, st.prompts ++ ["openAiKey"]⟩) ∧
    (∀ st : St, E.isCI = false → st.program.framework ≠ some "fastapi" →
      st.program.eslint = none → A.abortAt ≠ some "eslint" →
      stepEslint E A st = .ok ⟨{ st.program with eslint := some A.eslint },
        { st.preferences with eslint := some A.eslint }, st.prompts ++ ["eslint"]⟩) ∧
    (∀ st st' : St, stepEngineDataSource E A st = .ok st' → st'.preferences = st.preferences) ∧
    (∀ st st' : St, stepLlamaParse E A st = .ok st' → st'.preferences = st.preferences) ∧
    (∀ st st' : St, stepWebBaseUrl E A st = .ok st' → st'.preferences = st.preferences) ∧
    (∀ st st' : St, askPostInstallActionF E A st = .ok st' → st'.preferences = st.preferences) ∧
    (∀ st : St, E.isCI = false → st.program.postInstallAction = none →
      A.abortAt ≠ some "postInstallAction" →
      askPostInstallActionF E A st = .ok ⟨{ st.program with postInstallAction := some A.action },
        st.preferences, st.prompts ++ ["postInstallAction"]⟩) := by
  refine ⟨?_, ?_, ?_, ?_, ?_, ?_, ?_, ?_, ?_, ?_, ?_, ?_,
    fun st st' h => stepEngineDataSource_preserves_preferences h,
    fun st st' h => stepLlamaParse_preserves_preferences h,
    fun st st' h => stepWebBaseUrl_preserves_preferences h,
    fun st st' h => askPostInstallActionF_preserves_preferences h, ?_⟩
  · intro st hci h hab
    unfold stepTemplate promptH addPrompt
    simp [h, hci, hab]
  · intro st hab
    unfold stepCommunity promptH addPrompt
    simp [hab]
  · intro st hab
    unfold stepLlamapack promptH addPrompt
    simp [hab]
  · intro st hci h hab
    unfold stepFramework promptH addPrompt
    simp [h, hci, hab]
  · intro st hci h1 h2 h3 hab
    unfold stepFrontend promptS addPrompt
    rw [if_pos ⟨h1, h2⟩, if_pos h3, if_neg (by simp [hci]), if_neg hab]
    rfl
  · intro st hci hg h hab
    unfold stepUi promptH addPrompt
    rw [if_pos hg, if_neg (by simp [h]), if_neg (by simp [hci]), if_neg hab]
    rfl
  · intro st hci h hab
    unfold stepModel promptH addPrompt
    simp [h, hci, hab]
  · intro st hci h1 h2 hab
    unfold stepEmbedding promptH addPrompt
    rw [if_pos ⟨by simp [h1], h2⟩, if_neg (by simp [hci]), if_neg hab]
    rfl
  · intro st hci h1 h2 hab
    unfold stepVectorDb promptH addPrompt
    rw [if_pos ⟨h1, by simp [h2]⟩, if_neg (by simp [hci]), if_neg hab]
    rfl
  · intro st hci h1 h2 h3 hab
    unfold stepTools
    rw [if_pos ⟨h1, h2, h3⟩, if_neg (by simp [hci])]
    unfold addPrompt
    simp [hab]
  · intro st h hab
    unfold stepOpenAiKey promptH addPrompt
    simp [h, hab]
  · intro st hci h1 h2 hab
    unfold stepEslint promptS addPrompt
    rw [if_pos ⟨h1, h2⟩, if_neg (by simp [hci]), if_neg hab]
    rfl
  · intro st hci h hab
    unfold askPostInstallActionF promptH addPrompt
    rw [if_pos h, if_neg (by simp [hci]), if_neg hab]
    rfl

theorem C7_interactive_write_targets_witness :
    stepModel {} { model := "m1" } ⟨{}, {}, []⟩ =
      .ok ⟨{ model := some "m1" }, { model := some "m1" }, ["model"]⟩ ∧
    askPostInstallActionF {} { action := "VSCode" } ⟨{}, {}, []⟩ =
      .ok ⟨{ postInstallAction := some "VSCode" }, {}, ["postInstallAction"]⟩ :=
  ⟨(C7_interactive_write_targets {} { model := "m1" }).2.2.2.2.2.2.1
      ⟨{}, {}, []⟩ rfl rfl (by decide),
   (C7_interactive_write_targets {} { action := "VSCode" }).2.2.2.2.2.2.2.2.2.2.2.2.2.2.2.2
      ⟨{}, {}, []⟩ rfl rfl (by decide)⟩

theorem mem_append_single {n name : String} {l : List String}
    (hne : n ≠ name) (h : n ∈ l ++ [name]) : n ∈ l := by
  rcases List.mem_append.mp h with h | h
  · exact h
  · simp at h
    exact absurd h hne

theorem promptS_ok {name : String} {A : Answers} {st st' : St}
    (h : promptS name A st = .ok st') : st' = addPrompt name st := by
  unfold promptS at h
  split at h
  · cases h
  · cases h; rfl

theorem promptH_ok_not_aborted {name : String} {A : Answers} {st st' : St}
    (h : promptH name A st = .ok st') : A.abortAt ≠ some name := by
  unfold promptH at h
  split at h
  · cases h
  · assumption

theorem promptS_ok_not_aborted {name : String} {A : Answers} {st st' : St}
    (h : promptS name A st = .ok st') : A.abortAt ≠ some name := by
  unfold promptS at h
  split at h
  · cases h
  · assumption

theorem selectLocalContextData_err {E : Env} {A : Answers} {t : String} {e : ExitInfo}
    (h : selectLocalContextData E A t = .error e) : e.code = 1 := by
  unfold selectLocalContextData at h
  repeat' split at h
  all_goals cases h
  all_goals rfl

theorem stepTemplate_abort_mem {E : Env} {A : Answers} {st st' : St} {n : String}
    (hA : A.abortAt = some n) (hn : n ≠ "tools") (h : stepTemplate E A st = .ok st') :
    n ∈ st'.prompts → n ∈ st.prompts := by
  unfold stepTemplate at h
  split at h
  · cases h; exact id
  · split at h
    · cases h; exact id
    · obtain ⟨st1, h1, h2⟩ := andThen_ok_elim h
      have hne := promptH_ok_not_aborted h1
      have e := promptH_ok h1
      subst e
      cases h2
      intro hm
      exact mem_append_single (by rintro rfl; exact absurd hA hne) hm

theorem stepCommunity_abort_mem {E : Env} {A : Answers} {st st' : St} {n : String}
    (hA : A.abortAt = some n) (hn : n ≠ "tools") (h : stepCommunity E A st = .ok st') :
    n ∈ st'.prompts → n ∈ st.prompts := by
  unfold stepCommunity at h
  obtain ⟨st1, h1, h2⟩ := andThen_ok_elim h
  have hne := promptH_ok_not_aborted h1
  have e := promptH_ok h1
  subst e
  cases h2
  intro hm
  exact mem_append_single (by rintro rfl; exact absurd hA hne) hm

theorem stepLlamapack_abort_mem {E : Env} {A : Answers} {st st' : St} {n : String}
    (hA : A.abortAt = some n) (hn : n ≠ "tools") (h : stepLlamapack E A st = .ok st') :
    n ∈ st'.prompts → n ∈ st.prompts := by
  unfold stepLlamapack at h
  obtain ⟨st1, h1, h2⟩ := andThen_ok_elim h
  have hne := promptH_ok_not_aborted h1
  have e := promptH_ok h1
  subst e
  cases h2
  intro hm
  exact mem_append_single (by rintro rfl; exact absurd hA hne) hm

theorem stepFramework_abort_mem {E : Env} {A : Answers} {st st' : St} {n : String}
    (hA : A.abortAt = some n) (hn : n ≠ "tools") (h : stepFramework E A st = .ok st') :
    n ∈ st'.prompts → n ∈ st.prompts := by
  unfold stepFramework at h
  split at h
  · cases h; exact id
  · split at h
    · cases h; exact id
    · obtain ⟨st1, h1, h2⟩ := andThen_ok_elim h
      have hne := promptH_ok_not_aborted h1
      have e := promptH_ok h1
      subst e
      cases h2
      intro hm
      exact mem_append_single (by rintro rfl; exact absurd hA hne) hm

theorem stepFrontend_abort_mem {E : Env} {A : Answers} {st st' : St} {n : String}
    (hA : A.abortAt = some n) (hn : n ≠ "tools") (h : stepFrontend E A st = .ok st') :
    n ∈ st'.prompts → n ∈ st.prompts := by
  unfold stepFrontend at h
  split at h
  · split at h
    · split at h
      · cases h; exact id
      · obtain ⟨st1, h1, h2⟩ := andThen_ok_elim h
        have hne := promptS_ok_not_aborted h1
        have e := promptS_ok h1
        subst e
        cases h2
        intro hm
        exact mem_append_single (by rintro rfl; exact absurd hA hne) hm
    · cases h; exact id
  · cases h; exact id

theorem stepUi_abort_mem {E : Env} {A : Answers} {st st' : St} {n : String}
    (hA : A.abortAt = some n) (hn : n ≠ "tools") (h : stepUi E A st = .ok st') :
    n ∈ st'.prompts → n ∈ st.prompts := by
  unfold stepUi at h
  split at h
  · split at h
    · cases h; exact id
    · split at h
      · cases h; exact id
      · obtain ⟨st1, h1, h2⟩ := andThen_ok_elim h
        have hne := promptH_ok_not_aborted h1
        have e := promptH_ok h1
        subst e
        cases h2
        intro hm
        exact mem_append_single (by rintro rfl; exact absurd hA hne) hm
  · cases h; exact id

theorem stepModel_abort_mem {E : Env} {A : Answers} {st st' : St} {n : String}
    (hA : A.abortAt = some n) (hn : n ≠ "tools") (h : stepModel E A st = .ok st') :
    n ∈ st'.prompts → n ∈ st.prompts := by
  unfold stepModel at h
  split at h
  · cases h; exact id
  · split at h
    · cases h; exact id
    · obtain ⟨st1, h1, h2⟩ := andThen_ok_elim h
      have hne := promptH_ok_not_aborted h1
      have e := promptH_ok h1
      subst e
      cases h2
      intro hm
      exact mem_append_single (by rintro rfl; exact absurd hA hne) hm

theorem stepEmbedding_abort_mem {E : Env} {A : Answers} {st st' : St} {n : String}
    (hA : A.abortAt = some n) (hn : n ≠ "tools") (h : stepEmbedding E A st = .ok st') :
    n ∈ st'.prompts → n ∈ st.prompts := by
  unfold stepEmbedding at h
  split at h
  · split at h
    · cases h; exact id
    · obtain ⟨st1, h1, h2⟩ := andThen_ok_elim h
      have hne := promptH_ok_not_aborted h1
      have e := promptH_ok h1
      subst e
      cases h2
      intro hm
      exact mem_append_single (by rintro rfl; exact absurd hA hne) hm
  · cases h; exact id

theorem stepVectorDb_abort_mem {E : Env} {A : Answers} {st st' : St} {n : String}
    (hA : A.abortAt = some n) (hn : n ≠ "tools") (h : stepVectorDb E A st = .ok st') :
    n ∈ st'.prompts → n ∈ st.prompts := by
  unfold stepVectorDb at h
  split at h
  · split at h
    · cases h; exact id
    · obtain ⟨st1, h1, h2⟩ := andThen_ok_elim h
      have hne := promptH_ok_not_aborted h1
      have e := promptH_ok h1
      subst e
      cases h2
      intro hm
      exact mem_append_single (by rintro rfl; exact absurd hA hne) hm
  · cases h; exact id

theorem stepTools_abort_mem {E : Env} {A : Answers} {st st' : St} {n : String}
    (_hA : A.abortAt = some n) (hn : n ≠ "tools") (h : stepTools E A st = .ok st') :
    n ∈ st'.prompts → n ∈ st.prompts := by
  unfold stepTools at h
  split at h
  · split at h
    · cases h; exact id
    · cases h
      intro hm
      exact mem_append_single hn hm
  · cases h; exact id

theorem stepOpenAiKey_abort_mem {E : Env} {A : Answers} {st st' : St} {n : String}
    (hA : A.abortAt = some n) (hn : n ≠ "tools") (h : stepOpenAiKey E A st = .ok st') :
    n ∈ st'.prompts → n ∈ st.prompts := by
  unfold stepOpenAiKey at h
  split at h
  · obtain ⟨st1, h1, h2⟩ := andThen_ok_elim h
    have hne := promptH_ok_not_aborted h1
    have e := promptH_ok h1
    subst e
    cases h2
    intro hm
    exact mem_append_single (by rintro rfl; exact absurd hA hne) hm
  · cases h; exact id

theorem stepEslint_abort_mem {E : Env} {A : Answers} {st st' : St} {n : String}
    (hA : A.abortAt = some n) (hn : n ≠ "tools") (h : stepEslint E A st = .ok st') :
    n ∈ st'.prompts → n ∈ st.prompts := by
  unfold stepEslint at h
  split at h
  · split at h
    · cases h; exact id
    · obtain ⟨st1, h1, h2⟩ := andThen_ok_elim h
      have hne := promptS_ok_not_aborted h1
      have e := promptS_ok h1
      subst e
      cases h2
      intro hm
      exact mem_append_single (by rintro rfl; exact absurd hA hne) hm
  · cases h; exact id

theorem stepFiles_abort_mem {E : Env} {st st' : St} {n : String}
    (h : stepFiles E st = .ok st') : n ∈ st'.prompts → n ∈ st.prompts := by
  unfold stepFiles at h
  split at h
  · dsimp only at h
    split at h
    · cases h
    · cases h; exact id
  · cases h; exact id

theorem stepEngineDataSource_abort_mem {E : Env} {A : Answers} {st st' : St} {n : String}
    (hA : A.abortAt = some n) (h : stepEngineDataSource E A st = .ok st') :
    n ∈ st'.prompts → n ∈ st.prompts := by
  unfold stepEngineDataSource at h
  split at h
  · split at h
    · cases h; exact id
    · obtain ⟨st1, h1, h2⟩ := andThen_ok_elim h
      have hne := promptH_ok_not_aborted h1
      have e := promptH_ok h1
      subst e
      have hpr : st'.prompts = (addPrompt "dataSource" st).prompts := by
        split at h2
        · cases h2; rfl
        · split at h2
          · cases h2; rfl
          · split at h2
            · split at h2
              · cases h2
              · cases h2; rfl
            · split at h2
              · split at h2
                · cases h2
                · cases h2; rfl
              · split at h2
                · cases h2; rfl
                · cases h2; rfl
      intro hm
      rw [hpr] at hm
      refine mem_append_single ?_ hm
      rintro rfl
      exact absurd hA hne
  · split at h
    · split at h
      · cases h; exact id
      · split at h
        · cases h; exact id
        · cases h; exact id
    · cases h; exact id

theorem stepLlamaParse_abort_mem {E : Env} {A : Answers} {st st' : St} {n : String}
    (hA : A.abortAt = some n) (h : stepLlamaParse E A st = .ok st') :
    n ∈ st'.prompts → n ∈ st.prompts := by
  unfold stepLlamaParse at h
  cases hds : st.program.dataSource with
  | none => rw [hds] at h; dsimp only at h; cases h; exact id
  | some ds =>
    rw [hds] at h
    dsimp only at h
    split at h
    · split at h
      · cases h; exact id
      · obtain ⟨st2, h1, h2⟩ := andThen_ok_elim h
        have key2 : n ∈ st2.prompts → n ∈ st.prompts := by
          split at h1
          · obtain ⟨st3, h3, h4⟩ := andThen_ok_elim h1
            have hne := promptH_ok_not_aborted h3
            have e := promptH_ok h3
            subst e
            cases h4
            intro hm
            exact mem_append_single (by rintro rfl; exact absurd hA hne) hm
          · cases h1
            exact id
        split at h2
        · obtain ⟨st4, h5, h6⟩ := andThen_ok_elim h2
          have hne2 := promptH_ok_not_aborted h5
          have e := promptH_ok h5
          subst e
          cases h6
          intro hm
          exact key2 (mem_append_single (by rintro rfl; exact absurd hA hne2) hm)
        · cases h2
          exact key2
    · cases h; exact id

theorem stepWebBaseUrl_abort_mem {E : Env} {A : Answers} {st st' : St} {n : String}
    (hA : A.abortAt = some n) (h : stepWebBaseUrl E A st = .ok st') :
    n ∈ st'.prompts → n ∈ st.prompts := by
  unfold stepWebBaseUrl at h
  cases hds : st.program.dataSource with
  | none => rw [hds] at h; dsimp only at h; cases h; exact id
  | some ds =>
    rw [hds] at h
    dsimp only at h
    split at h
    · obtain ⟨st1, h1, h2⟩ := andThen_ok_elim h
      have hne := promptH_ok_not_aborted h1
      have e := promptH_ok h1
      subst e
      split at h2
      · cases h2
        intro hm
        exact mem_append_single (by rintro rfl; exact absurd hA hne) hm
      · cases h2
    · cases h; exact id

theorem askPostInstallActionF_abort_mem {E : Env} {A : Answers} {st st' : St} {n : String}
    (hA : A.abortAt = some n) (h : askPostInstallActionF E A st = .ok st') :
    n ∈ st'.prompts → n ∈ st.prompts := by
  unfold askPostInstallActionF at h
  split at h
  · split at h
    · cases h; exact id
    · obtain ⟨st1, h1, h2⟩ := andThen_ok_elim h
      have hne := promptH_ok_not_aborted h1
      have e := promptH_ok h1
      subst e
      cases h2
      intro hm
      exact mem_append_single (by rintro rfl; exact absurd hA hne) hm
  · cases h; exact id

theorem promptH_err {name : String} {A : Answers} {st : St} {p : ExitInfo × St}
    (h : promptH name A st = .error p) : p.1.code = 1 := by
  unfold promptH at h
  split at h
  · cases h; rfl
  · cases h

theorem promptS_err {name : String} {A : Answers} {st : St} {p : ExitInfo × St}
    (h : promptS name A st = .error p) : p.1.code = 1 := by
  unfold promptS at h
  split at h
  · cases h; rfl
  · cases h

theorem stepTemplate_err {E : Env} {A : Answers} {st : St} {p : ExitInfo × St}
    (h : stepTemplate E A st = .error p) : p.1.code = 1 := by
  unfold stepTemplate at h
  split at h
  · cases h
  · split at h
    · cases h
    · rcases andThen_error_elim h with h1 | ⟨st1, h1, h2⟩
      · exact promptH_err h1
      · cases h2

theorem stepFramework_err {E : Env} {A : Answers} {st : St} {p : ExitInfo × St}
    (h : stepFramework E A st = .error p) : p.1.code = 1 := by
  unfold stepFramework at h
  split at h
  · cases h
  · split at h
    · cases h
    · rcases andThen_error_elim h with h1 | ⟨st1, h1, h2⟩
      · exact promptH_err h1
      · cases h2

theorem stepModel_err {E : Env} {A : Answers} {st : St} {p : ExitInfo × St}
    (h : stepModel E A st = .error p) : p.1.code = 1 := by
  unfold stepModel at h
  split at h
  · cases h
  · split at h
    · cases h
    · rcases andThen_error_elim h with h1 | ⟨st1, h1, h2⟩
      · exact promptH_err h1
      · cases h2

theorem stepEmbedding_err {E : Env} {A : Answers} {st : St} {p : ExitInfo × St}
    (h : stepEmbedding E A st = .error p) : p.1.code = 1 := by
  unfold stepEmbedding at h
  split at h
  · split at h
    · cases h
    · rcases andThen_error_elim h with h1 | ⟨st1, h1, h2⟩
      · exact promptH_err h1
      · cases h2
  · cases h

theorem stepVectorDb_err {E : Env} {A : Answers} {st : St} {p : ExitInfo × St}
    (h : stepVectorDb E A st = .error p) : p.1.code = 1 := by
  unfold stepVectorDb at h
  split at h
  · split at h
    · cases h
    · rcases andThen_error_elim h with h1 | ⟨st1, h1, h2⟩
      · exact promptH_err h1
      · cases h2
  · cases h

theorem stepEslint_err {E : Env} {A : Answers} {st : St} {p : ExitInfo × St}
    (h : stepEslint E A st = .error p) : p.1.code = 1 := by
  unfold stepEslint at h
  split at h
  · split at h
    · cases h
    · rcases andThen_error_elim h with h1 | ⟨st1, h1, h2⟩
      · exact promptS_err h1
      · cases h2
  · cases h

theorem stepCommunity_err {E : Env} {A : Answers} {st : St} {p : ExitInfo × St}
    (h : stepCommunity E A st = .error p) : p.1.code = 1 := by
  unfold stepCommunity at h
  rcases andThen_error_elim h with h1 | ⟨st1, h1, h2⟩
  · exact promptH_err h1
  · cases h2

theorem stepLlamapack_err {E : Env} {A : Answers} {st : St} {p : ExitInfo × St}
    (h : stepLlamapack E A st = .error p) : p.1.code = 1 := by
  unfold stepLlamapack at h
  rcases andThen_error_elim h with h1 | ⟨st1, h1, h2⟩
  · exact promptH_err h1
  · cases h2

theorem stepFrontend_err {E : Env} {A : Answers} {st : St} {p : ExitInfo × St}
    (h : stepFrontend E A st = .error p) : p.1.code = 1 := by
  unfold stepFrontend at h
  split at h
  · split at h
    · split at h
      · cases h
      · rcases andThen_error_elim h with h1 | ⟨st1, h1, h2⟩
        · exact promptS_err h1
        · cases h2
    · cases h
  · cases h

theorem stepUi_err {E : Env} {A : Answers} {st : St} {p : ExitInfo × St}
    (h : stepUi E A st = .error p) : p.1.code = 1 := by
  unfold stepUi at h
  split at h
  · split at h
    · cases h
    · split at h
      · cases h
      · rcases andThen_error_elim h with h1 | ⟨st1, h1, h2⟩
        · exact promptH_err h1
        · cases h2
  · cases h

theorem stepTools_err {E : Env} {A : Answers} {st : St} {p : ExitInfo × St}
    (h : stepTools E A st = .error p) : p.1.code = 1 := by
  unfold stepTools at h
  split at h
  · split at h
    · cases h
    · cases h
  · cases h

theorem stepOpenAiKey_err {E : Env} {A : Answers} {st : St} {p : ExitInfo × St}
    (h : stepOpenAiKey E A st = .error p) : p.1.code = 1 := by
  unfold stepOpenAiKey at h
  split at h
  · rcases andThen_error_elim h with h1 | ⟨st1, h1, h2⟩
    · exact promptH_err h1
    · cases h2
  · cases h

theorem stepFiles_err {E : Env} {st : St} {p : ExitInfo × St}
    (h : stepFiles E st = .error p) : p.1.code = 1 := by
  unfold stepFiles at h
  split at h
  · dsimp only at h
    split at h
    · cases h; rfl
    · cases h
  · cases h

theorem askPostInstallActionF_err {E : Env} {A : Answers} {st : St} {p : ExitInfo × St}
    (h : askPostInstallActionF E A st = .error p) : p.1.code = 1 := by
  unfold askPostInstallActionF at h
  split at h
  · split at h
    · cases h
    · rcases andThen_error_elim h with h1 | ⟨st1, h1, h2⟩
      · exact promptH_err h1
      · cases h2
  · cases h

theorem stepWebBaseUrl_err {E : Env} {A : Answers} {st : St} {p : ExitInfo × St}
    (h : stepWebBaseUrl E A st = .error p) : p.1.code = 1 := by
  unfold stepWebBaseUrl at h
  cases hds : st.program.dataSource with
  | none => rw [hds] at h; dsimp only at h; cases h
  | some ds =>
    rw [hds] at h
    dsimp only at h
    split at h
    · rcases andThen_error_elim h with h1 | ⟨st1, h1, h2⟩
      · exact promptH_err h1
      · split at h2
        · cases h2
        · cases h2; rfl
    · cases h

theorem stepLlamaParse_err {E : Env} {A : Answers} {st : St} {p : ExitInfo × St}
    (h : stepLlamaParse E A st = .error p) : p.1.code = 1 := by
  unfold stepLlamaParse at h
  cases hds : st.program.dataSource with
  | none => rw [hds] at h; dsimp only at h; cases h
  | some ds =>
    rw [hds] at h
    dsimp only at h
    split at h
    · split at h
      · cases h
      · rcases andThen_error_elim h with h1 | ⟨st2, h1, h2⟩
        · split at h1
          · rcases andThen_error_elim h1 with h3 | ⟨st3, h3, h4⟩
            · exact promptH_err h3
            · cases h4
          · cases h1
        · split at h2
          · rcases andThen_error_elim h2 with h5 | ⟨st4, h5, h6⟩
            · exact promptH_err h5
            · cases h6
          · cases h2
    · cases h

theorem stepEngineDataSource_err {E : Env} {A : Answers} {st : St} {p : ExitInfo × St}
    (h : stepEngineDataSource E A st = .error p) : p.1.code = 1 := by
  unfold stepEngineDataSource at h
  split at h
  · split at h
    · cases h
    · rcases andThen_error_elim h with h1 | ⟨st1, h1, h2⟩
      · exact promptH_err h1
      · split at h2
        · cases h2
        · split at h2
          · cases h2
          · split at h2
            · split at h2
              · cases h2
                exact selectLocalContextData_err (by assumption)
              · cases h2
            · split at h2
              · split at h2
                · cases h2
                  exact selectLocalContextData_err (by assumption)
                · cases h2
              · split at h2
                · cases h2
                · cases h2
  · split at h
    · split at h
      · cases h
      · split at h
        · cases h
        · cases h
    · cases h

/-- C8 amended: an operator abort at any prompt other than the
tool-selection multiselect never reaches a successful result (a successful
run does not contain the aborted prompt in its trace), and every process
exit of the flow carries status 1; the tool-selection prompt has no cancel
handlers and aborting it merely leaves the answer empty (see the
counterexample). -/
theorem C8_abort_exits (E : Env) (A : Answers) (p q : QuestionArgs) :
    (∀ (n : String) (st' : St), A.abortAt = some n → n ≠ "tools" →
      askQuestions E A p q = .ok st' → n ∉ st'.prompts) ∧
    (∀ ep : ExitInfo × St, askQuestions E A p q = .error ep → ep.1.code = 1) := by
  constructor
  · intro n st' hA hn h hm
    unfold askQuestions at h
    obtain ⟨st1, h1, h2⟩ := andThen_ok_elim h
    split at h2
    · have m := stepTemplate_abort_mem hA hn h1 (stepCommunity_abort_mem hA hn h2 hm)
      simp at m
    · split at h2
      · obtain ⟨st2, h3, h4⟩ := andThen_ok_elim h2
        have m := stepTemplate_abort_mem hA hn h1
          (stepLlamapack_abort_mem hA hn h3 (askPostInstallActionF_abort_mem hA h4 hm))
        simp at m
      · obtain ⟨t2, g2, h2⟩ := andThen_ok_elim h2
        obtain ⟨t3, g3, h2⟩ := andThen_ok_elim h2
        obtain ⟨t4, g4, h2⟩ := andThen_ok_elim h2
        obtain ⟨t5, g5, h2⟩ := andThen_ok_elim h2
        obtain ⟨t6, g6, h2⟩ := andThen_ok_elim h2
        obtain ⟨t7, g7, h2⟩ := andThen_ok_elim h2
        obtain ⟨t8, g8, h2⟩ := andThen_ok_elim h2
        obtain ⟨t9, g9, h2⟩ := andThen_ok_elim h2
        obtain ⟨t10, g10, h2⟩ := andThen_ok_elim h2
        obtain ⟨t11, g11, h2⟩ := andThen_ok_elim h2
        obtain ⟨t12, g12, h2⟩ := andThen_ok_elim h2
        obtain ⟨t13, g13, h2⟩ := andThen_ok_elim h2
        obtain ⟨t14, g14, h2⟩ := andThen_ok_elim h2
        have m15 := askPostInstallActionF_abort_mem hA h2 hm
        have m14 := stepEslint_abort_mem hA hn g14 m15
        have m13 := stepOpenAiKey_abort_mem hA hn g13 m14
        have m12 := stepTools_abort_mem hA hn g12 m13
        have m11 := stepVectorDb_abort_mem hA hn g11 m12
        have m10 := stepWebBaseUrl_abort_mem hA g10 m11
        have m9 := stepLlamaParse_abort_mem hA g9 m10
        have m8 := stepEngineDataSource_abort_mem hA g8 m9
        have m7 := stepFiles_abort_mem g7 m8
        have m6 := stepEmbedding_abort_mem hA hn g6 m7
        have m5 := stepModel_abort_mem hA hn g5 m6
        have m4 := stepUi_abort_mem hA hn g4 m5
        have m3 := stepFrontend_abort_mem hA hn g3 m4
        have m2 := stepFramework_abort_mem hA hn g2 m3
        have m1 := stepTemplate_abort_mem hA hn h1 m2
        simp at m1
  · intro ep h
    unfold askQuestions at h
    rcases andThen_error_elim h with h1 | ⟨st1, h1, h⟩
    · exact stepTemplate_err h1
    · split at h
      · exact stepCommunity_err h
      · split at h
        · rcases andThen_error_elim h with h2 | ⟨st2, h2, h⟩
          · exact stepLlamapack_err h2
          · exact askPostInstallActionF_err h
        · rcases andThen_error_elim h with h2 | ⟨u0, h2, h⟩
          · exact stepFramework_err h2
          · rcases andThen_error_elim h with h2 | ⟨u1, h2, h⟩
            · exact stepFrontend_err h2
            · rcases andThen_error_elim h with h2 | ⟨u2, h2, h⟩
              · exact stepUi_err h2
              · rcases andThen_error_elim h with h2 | ⟨u3, h2, h⟩
                · exact stepModel_err h2
                · rcases andThen_error_elim h with h2 | ⟨u4, h2, h⟩
                  · exact stepEmbedding_err h2
                  · rcases andThen_error_elim h with h2 | ⟨u5, h2, h⟩
                    · exact stepFiles_err h2
                    · rcases andThen_error_elim h with h2 | ⟨u6, h2, h⟩
                      · exact stepEngineDataSource_err h2
                      · rcases andThen_error_elim h with h2 | ⟨u7, h2, h⟩
                        · exact stepLlamaParse_err h2
                        · rcases andThen_error_elim h with h2 | ⟨u8, h2, h⟩
                          · exact stepWebBaseUrl_err h2
                          · rcases andThen_error_elim h with h2 | ⟨u9, h2, h⟩
                            · exact stepVectorDb_err h2
                            · rcases andThen_error_elim h with h2 | ⟨u10, h2, h⟩
                              · exact stepTools_err h2
                              · rcases andThen_error_elim h with h2 | ⟨u11, h2, h⟩
                                · exact stepOpenAiKey_err h2
                                · rcases andThen_error_elim h with h2 | ⟨u12, h2, h⟩
                                  · exact stepEslint_err h2
                                  · exact askPostInstallActionF_err h

theorem C8_abort_exits_witness :
    ("model" : String) ∉ (⟨fullProgram, {}, []⟩ : St).prompts ∧
    ((⟨1, "Exiting.", false⟩, ⟨noActionProgram, {}, ["postInstallAction"]⟩) : ExitInfo × St).1.code = 1 :=
  ⟨(C8_abort_exits {} { abortAt := some "model" } fullProgram {}).1 "model"
      ⟨fullProgram, {}, []⟩ rfl (by decide) rfl,
   (C8_abort_exits {} { abortAt := some "postInstallAction" } noActionProgram {}).2
      (⟨1, "Exiting.", false⟩, ⟨noActionProgram, {}, ["postInstallAction"]⟩) rfl⟩

/-- A JS-truthy optional string is in particular defined. -/
theorem strTruthy_isSome {o : Option String} (h : strTruthy o = true) :
    o.isSome = true := by
  cases o <;> simp_all [strTruthy]

/-- `a ?? b` is defined whenever the fallback is. -/
theorem prefOr_isSome {α : Type} {a b : Option α} (h : b.isSome = true) :
    (prefOr a b).isSome = true := by
  cases a <;> simp_all [prefOr]

theorem stepUi_fields {E : Env} {A : Answers} {st st' : St}
    (h : stepUi E A st = .ok st') :
    st'.program.template = st.program.template ∧
    st'.program.framework = st.program.framework ∧
    st'.program.frontend = st.program.frontend ∧
    st'.program.model = st.program.model ∧
    st'.program.engine = st.program.engine ∧
    st'.program.openAiKey = st.program.openAiKey ∧
    st'.program.postInstallAction = st.program.postInstallAction := by
  unfold stepUi at h
  split at h
  · split at h
    · cases h; exact ⟨rfl, rfl, rfl, rfl, rfl, rfl, rfl⟩
    · split at h
      · cases h; exact ⟨rfl, rfl, rfl, rfl, rfl, rfl, rfl⟩
      · obtain ⟨st1, h1, h2⟩ := andThen_ok_elim h
        have e := promptH_ok h1
        subst e
        cases h2
        exact ⟨rfl, rfl, rfl, rfl, rfl, rfl, rfl⟩
  · cases h; exact ⟨rfl, rfl, rfl, rfl, rfl, rfl, rfl⟩

theorem stepEmbedding_fields {E : Env} {A : Answers} {st st' : St}
    (h : stepEmbedding E A st = .ok st') :
    st'.program.template = st.program.template ∧
    st'.program.framework = st.program.framework ∧
    st'.program.frontend = st.program.frontend ∧
    st'.program.model = st.program.model ∧
    st'.program.engine = st.program.engine ∧
    st'.program.openAiKey = st.program.openAiKey ∧
    st'.program.postInstallAction = st.program.postInstallAction := by
  unfold stepEmbedding at h
  split at h
  · split at h
    · cases h; exact ⟨rfl, rfl, rfl, rfl, rfl, rfl, rfl⟩
    · obtain ⟨st1, h1, h2⟩ := andThen_ok_elim h
      have e := promptH_ok h1
      subst e
      cases h2
      exact ⟨rfl, rfl, rfl, rfl, rfl, rfl, rfl⟩
  · cases h; exact ⟨rfl, rfl, rfl, rfl, rfl, rfl, rfl⟩

theorem stepFiles_fields {E : Env} {st st' : St}
    (h : stepFiles E st = .ok st') :
    st'.program.template = st.program.template ∧
    st'.program.framework = st.program.framework ∧
    st'.program.frontend = st.program.frontend ∧
    st'.program.model = st.program.model ∧
    st'.program.engine = st.program.engine ∧
    st'.program.openAiKey = st.program.openAiKey ∧
    st'.program.postInstallAction = st.program.postInstallAction := by
  unfold stepFiles at h
  split at h
  · dsimp only at h
    split at h
    · cases h
    · cases h; exact ⟨rfl, rfl, rfl, rfl, rfl, rfl, rfl⟩
  · cases h; exact ⟨rfl, rfl, rfl, rfl, rfl, rfl, rfl⟩

theorem stepLlamaParse_fields {E : Env} {A : Answers} {st st' : St}
    (h : stepLlamaParse E A st = .ok st') :
    st'.program.template = st.program.template ∧
    st'.program.framework = st.program.framework ∧
    st'.program.frontend = st.program.frontend ∧
    st'.program.model = st.program.model ∧
    st'.program.engine = st.program.engine ∧
    st'.program.openAiKey = st.program.openAiKey ∧
    st'.program.postInstallAction = st.program.postInstallAction := by
  unfold stepLlamaParse at h
  cases hds : st.program.dataSource with
  | none => rw [hds] at h; dsimp only at h; cases h; exact ⟨rfl, rfl, rfl, rfl, rfl, rfl, rfl⟩
  | some ds =>
    rw [hds] at h
    dsimp only at h
    split at h
    · split at h
      · cases h; exact ⟨rfl, rfl, rfl, rfl, rfl, rfl, rfl⟩
      · obtain ⟨st2, h1, h2⟩ := andThen_ok_elim h
        have key2 : st2.program.template = st.program.template ∧
    st2.program.framework = st.program.framework ∧
    st2.program.frontend = st.program.frontend ∧
    st2.program.model = st.program.model ∧
    st2.program.engine = st.program.engine ∧
    st2.program.openAiKey = st.program.openAiKey ∧
    st2.program.postInstallAction = st.program.postInstallAction := by
          split at h1
          · obtain ⟨st3, h3, h4⟩ := andThen_ok_elim h1
            have e := promptH_ok h3
            subst e
            cases h4
            exact ⟨rfl, rfl, rfl, rfl, rfl, rfl, rfl⟩
          · cases h1
            exact ⟨rfl, rfl, rfl, rfl, rfl, rfl, rfl⟩
        obtain ⟨k1, k2, k3, k4, k5, k6, k7⟩ := key2
        split at h2
        · obtain ⟨st4, h5, h6⟩ := andThen_ok_elim h2
          have e := promptH_ok h5
          subst e
          cases h6
          exact ⟨k1, k2, k3, k4, k5, k6, k7⟩
        · cases h2
          exact ⟨k1, k2, k3, k4, k5, k6, k7⟩
    · cases h; exact ⟨rfl, rfl, rfl, rfl, rfl, rfl, rfl⟩

theorem stepWebBaseUrl_fields {E : Env} {A : Answers} {st st' : St}
    (h : stepWebBaseUrl E A st = .ok st') :
    st'.program.template = st.program.template ∧
    st'.program.framework = st.program.framework ∧
    st'.program.frontend = st.program.frontend ∧
    st'.program.model = st.program.model ∧
    st'.program.engine = st.program.engine ∧
    st'.program.openAiKey = st.program.openAiKey ∧
    st'.program.postInstallAction = st.program.postInstallAction := by
  unfold stepWebBaseUrl at h
  cases hds : st.program.dataSource with
  | none => rw [hds] at h; dsimp only at h; cases h; exact ⟨rfl, rfl, rfl, rfl, rfl, rfl, rfl⟩
  | some ds =>
    rw [hds] at h
    dsimp only at h
    split at h
    · obtain ⟨st1, h1, h2⟩ := andThen_ok_elim h
      have e := promptH_ok h1
      subst e
      split at h2
      · cases h2; exact ⟨rfl, rfl, rfl, rfl, rfl, rfl, rfl⟩
      · cases h2
    · cases h; exact ⟨rfl, rfl, rfl, rfl, rfl, rfl, rfl⟩

theorem stepVectorDb_fields {E : Env} {A : Answers} {st st' : St}
    (h : stepVectorDb E A st = .ok st') :
    st'.program.template = st.program.template ∧
    st'.program.framework = st.program.framework ∧
    st'.program.frontend = st.program.frontend ∧
    st'.program.model = st.program.model ∧
    st'.program.engine = st.program.engine ∧
    st'.program.openAiKey = st.program.openAiKey ∧
    st'.program.postInstallAction = st.program.postInstallAction := by
  unfold stepVectorDb at h
  split at h
  · split at h
    · cases h; exact ⟨rfl, rfl, rfl, rfl, rfl, rfl, rfl⟩
    · obtain ⟨st1, h1, h2⟩ := andThen_ok_elim h
      have e := promptH_ok h1
      subst e
      cases h2
      exact ⟨rfl, rfl, rfl, rfl, rfl, rfl, rfl⟩
  · cases h; exact ⟨rfl, rfl, rfl, rfl, rfl, rfl, rfl⟩

theorem stepTools_fields {E : Env} {A : Answers} {st st' : St}
    (h : stepTools E A st = .ok st') :
    st'.program.template = st.program.template ∧
    st'.program.framework = st.program.framework ∧
    st'.program.frontend = st.program.frontend ∧
    st'.program.model = st.program.model ∧
    st'.program.engine = st.program.engine ∧
    st'.program.openAiKey = st.program.openAiKey ∧
    st'.program.postInstallAction = st.program.postInstallAction := by
  unfold stepTools at h
  split at h
  · split at h
    · cases h; exact ⟨rfl, rfl, rfl, rfl, rfl, rfl, rfl⟩
    · cases h; exact ⟨rfl, rfl, rfl, rfl, rfl, rfl, rfl⟩
  · cases h; exact ⟨rfl, rfl, rfl, rfl, rfl, rfl, rfl⟩

theorem stepEslint_fields {E : Env} {A : Answers} {st st' : St}
    (h : stepEslint E A st = .ok st') :
    st'.program.template = st.program.template ∧
    st'.program.framework = st.program.framework ∧
    st'.program.frontend = st.program.frontend ∧
    st'.program.model = st.program.model ∧
    st'.program.engine = st.program.engine ∧
    st'.program.openAiKey = st.program.openAiKey ∧
    st'.program.postInstallAction = st.program.postInstallAction := by
  unfold stepEslint at h
  split at h
  · split at h
    · cases h; exact ⟨rfl, rfl, rfl, rfl, rfl, rfl, rfl⟩
    · obtain ⟨st1, h1, h2⟩ := andThen_ok_elim h
      have e := promptS_ok h1
      subst e
      cases h2
      exact ⟨rfl, rfl, rfl, rfl, rfl, rfl, rfl⟩
  · cases h; exact ⟨rfl, rfl, rfl, rfl, rfl, rfl, rfl⟩

theorem stepTemplate_fields {E : Env} {A : Answers} {st st' : St}
    (h : stepTemplate E A st = .ok st') :
    st'.program.template.isSome = true ∧
    st'.program.framework = st.program.framework ∧
    st'.program.frontend = st.program.frontend ∧
    st'.program.model = st.program.model ∧
    st'.program.engine = st.program.engine ∧
    st'.program.openAiKey = st.program.openAiKey ∧
    st'.program.postInstallAction = st.program.postInstallAction := by
  unfold stepTemplate at h
  split at h
  · cases h
    exact ⟨strTruthy_isSome (by assumption), rfl, rfl, rfl, rfl, rfl, rfl⟩
  · split at h
    · cases h
      exact ⟨prefOr_isSome rfl, rfl, rfl, rfl, rfl, rfl, rfl⟩
    · obtain ⟨st1, h1, h2⟩ := andThen_ok_elim h
      have e := promptH_ok h1
      subst e
      cases h2
      exact ⟨rfl, rfl, rfl, rfl, rfl, rfl, rfl⟩

theorem stepFramework_fields {E : Env} {A : Answers} {st st' : St}
    (h : stepFramework E A st = .ok st') :
    st'.program.template = st.program.template ∧
    st'.program.framework.isSome = true ∧
    st'.program.frontend = st.program.frontend ∧
    st'.program.model = st.program.model ∧
    st'.program.engine = st.program.engine ∧
    st'.program.openAiKey = st.program.openAiKey ∧
    st'.program.postInstallAction = st.program.postInstallAction := by
  unfold stepFramework at h
  split at h
  · cases h
    exact ⟨rfl, strTruthy_isSome (by assumption), rfl, rfl, rfl, rfl, rfl⟩
  · split at h
    · cases h
      exact ⟨rfl, prefOr_isSome rfl, rfl, rfl, rfl, rfl, rfl⟩
    · obtain ⟨st1, h1, h2⟩ := andThen_ok_elim h
      have e := promptH_ok h1
      subst e
      cases h2
      exact ⟨rfl, rfl, rfl, rfl, rfl, rfl, rfl⟩

theorem stepModel_fields {E : Env} {A : Answers} {st st' : St}
    (h : stepModel E A st = .ok st') :
    st'.program.template = st.program.template ∧
    st'.program.framework = st.program.framework ∧
    st'.program.frontend = st.program.frontend ∧
    st'.program.model.isSome = true ∧
    st'.program.engine = st.program.engine ∧
    st'.program.openAiKey = st.program.openAiKey ∧
    st'.program.postInstallAction = st.program.postInstallAction := by
  unfold stepModel at h
  split at h
  · cases h
    exact ⟨rfl, rfl, rfl, strTruthy_isSome (by assumption), rfl, rfl, rfl⟩
  · split at h
    · cases h
      exact ⟨rfl, rfl, rfl, prefOr_isSome rfl, rfl, rfl, rfl⟩
    · obtain ⟨st1, h1, h2⟩ := andThen_ok_elim h
      have e := promptH_ok h1
      subst e
      cases h2
      exact ⟨rfl, rfl, rfl, rfl, rfl, rfl, rfl⟩

theorem stepFrontend_fields {E : Env} {A : Answers} {st st' : St}
    (h : stepFrontend E A st = .ok st') :
    st'.program.template = st.program.template ∧
    st'.program.framework = st.program.framework ∧
    st'.program.frontend.isSome = true ∧
    st'.program.model = st.program.model ∧
    st'.program.engine = st.program.engine ∧
    st'.program.openAiKey = st.program.openAiKey ∧
    st'.program.postInstallAction = st.program.postInstallAction := by
  unfold stepFrontend at h
  split at h
  · split at h
    · split at h
      · cases h
        exact ⟨rfl, rfl, prefOr_isSome rfl, rfl, rfl, rfl, rfl⟩
      · obtain ⟨st1, h1, h2⟩ := andThen_ok_elim h
        have e := promptS_ok h1
        subst e
        cases h2
        exact ⟨rfl, rfl, rfl, rfl, rfl, rfl, rfl⟩
    · cases h
      refine ⟨rfl, rfl, ?_, rfl, rfl, rfl, rfl⟩
      simpa [Option.isSome_iff_ne_none] using (by assumption : ¬ st.program.frontend = none)
  · cases h
    exact ⟨rfl, rfl, rfl, rfl, rfl, rfl, rfl⟩

theorem stepOpenAiKey_fields {E : Env} {A : Answers} {st st' : St}
    (h : stepOpenAiKey E A st = .ok st') :
    st'.program.template = st.program.template ∧
    st'.program.framework = st.program.framework ∧
    st'.program.frontend = st.program.frontend ∧
    st'.program.model = st.program.model ∧
    st'.program.engine = st.program.engine ∧
    st'.program.openAiKey.isSome = true ∧
    st'.program.postInstallAction = st.program.postInstallAction := by
  unfold stepOpenAiKey at h
  split at h
  · obtain ⟨st1, h1, h2⟩ := andThen_ok_elim h
    have e := promptH_ok h1
    subst e
    cases h2
    exact ⟨rfl, rfl, rfl, rfl, rfl, rfl, rfl⟩
  · cases h
    exact ⟨rfl, rfl, rfl, rfl, rfl, strTruthy_isSome (not_not.mp (by assumption)), rfl⟩

theorem askPostInstallActionF_fields {E : Env} {A : Answers} {st st' : St}
    (h : askPostInstallActionF E A st = .ok st') :
    st'.program.template = st.program.template ∧
    st'.program.framework = st.program.framework ∧
    st'.program.frontend = st.program.frontend ∧
    st'.program.model = st.program.model ∧
    st'.program.engine = st.program.engine ∧
    st'.program.openAiKey = st.program.openAiKey ∧
    st'.program.postInstallAction.isSome = true := by
  unfold askPostInstallActionF at h
  split at h
  · split at h
    · cases h
      exact ⟨rfl, rfl, rfl, rfl, rfl, rfl, prefOr_isSome rfl⟩
    · obtain ⟨st1, h1, h2⟩ := andThen_ok_elim h
      have e := promptH_ok h1
      subst e
      cases h2
      exact ⟨rfl, rfl, rfl, rfl, rfl, rfl, rfl⟩
  · cases h
    refine ⟨rfl, rfl, rfl, rfl, rfl, rfl, ?_⟩
    simpa [Option.isSome_iff_ne_none] using (by assumption : ¬ st.program.postInstallAction = none)

theorem stepEngineDataSource_fields {E : Env} {A : Answers} {st st' : St}
    (hA2 : A.dataSource ∈ ["simple", "exampleFile", "localFile", "localFolder", "web"])
    (h : stepEngineDataSource E A st = .ok st') :
    st'.program.template = st.program.template ∧
    st'.program.framework = st.program.framework ∧
    st'.program.frontend = st.program.frontend ∧
    st'.program.model = st.program.model ∧
    st'.program.engine.isSome = true ∧
    st'.program.openAiKey = st.program.openAiKey ∧
    st'.program.postInstallAction = st.program.postInstallAction := by
  unfold stepEngineDataSource at h
  split at h
  · split at h
    · cases h
      exact ⟨rfl, rfl, rfl, rfl, prefOr_isSome rfl, rfl, rfl⟩
    · obtain ⟨st1, h1, h2⟩ := andThen_ok_elim h
      have e := promptH_ok h1
      subst e
      split at h2
      · cases h2; exact ⟨rfl, rfl, rfl, rfl, rfl, rfl, rfl⟩
      · split at h2
        · cases h2; exact ⟨rfl, rfl, rfl, rfl, rfl, rfl, rfl⟩
        · split at h2
          · split at h2
            · cases h2
            · cases h2; exact ⟨rfl, rfl, rfl, rfl, rfl, rfl, rfl⟩
          · split at h2
            · split at h2
              · cases h2
              · cases h2; exact ⟨rfl, rfl, rfl, rfl, rfl, rfl, rfl⟩
            · split at h2
              · cases h2; exact ⟨rfl, rfl, rfl, rfl, rfl, rfl, rfl⟩
              · exfalso
                simp only [List.mem_cons, List.not_mem_nil, or_false] at hA2
                rcases hA2 with h' | h' | h' | h' | h' <;> contradiction
  · split at h
    · split at h
      · cases h
        exact ⟨rfl, rfl, rfl, rfl, strTruthy_isSome (not_not.mp (by assumption)), rfl, rfl⟩
      · split at h
        · cases h
          exact ⟨rfl, rfl, rfl, rfl, strTruthy_isSome (not_not.mp (by assumption)), rfl, rfl⟩
        · cases h
          exact ⟨rfl, rfl, rfl, rfl, strTruthy_isSome (not_not.mp (by assumption)), rfl, rfl⟩
    · cases h
      exact ⟨rfl, rfl, rfl, rfl, strTruthy_isSome (not_not.mp (by assumption)), rfl, rfl⟩

theorem stepTemplate_values {E : Env} {A : Answers} {st st' : St}
    (h : stepTemplate E A st = .ok st') :
    st'.program.template = st.program.template ∨
    st'.program.template = some A.template ∨
    st'.program.template = prefOr st.preferences.template defaults.template := by
  unfold stepTemplate at h
  split at h
  · cases h
    exact Or.inl rfl
  · split at h
    · cases h
      exact Or.inr (Or.inr rfl)
    · obtain ⟨st1, h1, h2⟩ := andThen_ok_elim h
      have e := promptH_ok h1
      subst e
      cases h2
      exact Or.inr (Or.inl rfl)

/-- C9 (amended): on any successful full run of the question flow whose
template resolution is neither community nor llamapack (explicit input,
answer, and preference/default all excluded) and whose data-source answer is
one of the five recognised choices, exactly the seven fields template,
framework, frontend, model, engine, openAiKey and postInstallAction are
guaranteed defined on the result; the remaining fields consumed by the
generator (dataSource, vectorDb, tools, embeddingModel, ui, eslint,
llamaCloudKey) may stay undefined, contradicting the spec invariant that
every consumed field is non-undefined on the success path. -/
theorem C9_always_resolved (E : Env) (A : Answers) (p q : QuestionArgs) (st' : St)
    (h : askQuestions E A p q = .ok st')
    (hds : A.dataSource ∈ ["simple", "exampleFile", "localFile", "localFolder", "web"])
    (hp1 : p.template ≠ some "community") (hp2 : p.template ≠ some "llamapack")
    (hA1 : A.template ≠ "community") (hA2 : A.template ≠ "llamapack")
    (hq1 : prefOr q.template defaults.template ≠ some "community")
    (hq2 : prefOr q.template defaults.template ≠ some "llamapack") :
    st'.program.template.isSome = true ∧ st'.program.framework.isSome = true ∧
    st'.program.frontend.isSome = true ∧ st'.program.model.isSome = true ∧
    st'.program.engine.isSome = true ∧ st'.program.openAiKey.isSome = true ∧
    st'.program.postInstallAction.isSome = true := by
  unfold askQuestions at h
  obtain ⟨st1, h1, h2⟩ := andThen_ok_elim h
  have F1 := stepTemplate_fields h1
  have V1 := stepTemplate_values h1
  have hne1 : ¬ st1.program.template = some "community" := by
    rcases V1 with e | e | e
    · rw [e]; exact hp1
    · rw [e]; intro hc; exact hA1 (Option.some.inj hc)
    · rw [e]; exact hq1
  have hne2 : ¬ st1.program.template = some "llamapack" := by
    rcases V1 with e | e | e
    · rw [e]; exact hp2
    · rw [e]; intro hc; exact hA2 (Option.some.inj hc)
    · rw [e]; exact hq2
  rw [if_neg hne1, if_neg hne2] at h2
  obtain ⟨t2, g2, h2⟩ := andThen_ok_elim h2
  obtain ⟨t3, g3, h2⟩ := andThen_ok_elim h2
  obtain ⟨t4, g4, h2⟩ := andThen_ok_elim h2
  obtain ⟨t5, g5, h2⟩ := andThen_ok_elim h2
  obtain ⟨t6, g6, h2⟩ := andThen_ok_elim h2
  obtain ⟨t7, g7, h2⟩ := andThen_ok_elim h2
  obtain ⟨t8, g8, h2⟩ := andThen_ok_elim h2
  obtain ⟨t9, g9, h2⟩ := andThen_ok_elim h2
  obtain ⟨t10, g10, h2⟩ := andThen_ok_elim h2
  obtain ⟨t11, g11, h2⟩ := andThen_ok_elim h2
  obtain ⟨t12, g12, h2⟩ := andThen_ok_elim h2
  obtain ⟨t13, g13, h2⟩ := andThen_ok_elim h2
  obtain ⟨t14, g14, h2⟩ := andThen_ok_elim h2
  have F2 := stepFramework_fields g2
  have F3 := stepFrontend_fields g3
  have F4 := stepUi_fields g4
  have F5 := stepModel_fields g5
  have F6 := stepEmbedding_fields g6
  have F7 := stepFiles_fields g7
  have F8 := stepEngineDataSource_fields hds g8
  have F9 := stepLlamaParse_fields g9
  have F10 := stepWebBaseUrl_fields g10
  have F11 := stepVectorDb_fields g11
  have F12 := stepTools_fields g12
  have F13 := stepOpenAiKey_fields g13
  have F14 := stepEslint_fields g14
  have F15 := askPostInstallActionF_fields h2
  refine ⟨?_, ?_, ?_, ?_, ?_, ?_, ?_⟩
  · rw [F15.1, F14.1, F13.1, F12.1, F11.1, F10.1, F9.1, F8.1, F7.1, F6.1, F5.1, F4.1, F3.1, F2.1]
    exact F1.1
  · rw [F15.2.1, F14.2.1, F13.2.1, F12.2.1, F11.2.1, F10.2.1, F9.2.1, F8.2.1, F7.2.1, F6.2.1, F5.2.1, F4.2.1, F3.2.1]
    exact F2.2.1
  · rw [F15.2.2.1, F14.2.2.1, F13.2.2.1, F12.2.2.1, F11.2.2.1, F10.2.2.1, F9.2.2.1, F8.2.2.1, F7.2.2.1, F6.2.2.1, F5.2.2.1, F4.2.2.1]
    exact F3.2.2.1
  · rw [F15.2.2.2.1, F14.2.2.2.1, F13.2.2.2.1, F12.2.2.2.1, F11.2.2.2.1, F10.2.2.2.1, F9.2.2.2.1, F8.2.2.2.1, F7.2.2.2.1, F6.2.2.2.1]
    exact F5.2.2.2.1
  · rw [F15.2.2.2.2.1, F14.2.2.2.2.1, F13.2.2.2.2.1, F12.2.2.2.2.1, F11.2.2.2.2.1, F10.2.2.2.2.1, F9.2.2.2.2.1]
    exact F8.2.2.2.2.1
  · rw [F15.2.2.2.2.2.1, F14.2.2.2.2.2.1]
    exact F13.2.2.2.2.2.1
  · exact F15.2.2.2.2.2.2

theorem C9_always_resolved_witness :
    (⟨fullProgram, {}, []⟩ : St).program.template.isSome = true ∧
    (⟨fullProgram, {}, []⟩ : St).program.framework.isSome = true ∧
    (⟨fullProgram, {}, []⟩ : St).program.frontend.isSome = true ∧
    (⟨fullProgram, {}, []⟩ : St).program.model.isSome = true ∧
    (⟨fullProgram, {}, []⟩ : St).program.engine.isSome = true ∧
    (⟨fullProgram, {}, []⟩ : St).program.openAiKey.isSome = true ∧
    (⟨fullProgram, {}, []⟩ : St).program.postInstallAction.isSome = true :=
  C9_always_resolved {} { dataSource := "simple" } fullProgram {} ⟨fullProgram, {}, []⟩
    rfl (by decide) (by decide) (by decide) (by decide) (by decide) (by decide) (by decide)

end CreateLlama
